import Mathlib

/-! The CUDA/HIP device API of DGL (`src/runtime/cuda/cuda_device_api.cc`)

A shallow embedding of `CUDADeviceAPI`.  The facade is a thin layer over three
external collaborators: the HIP driver, the `TensorDispatcher` (the external
tensor-runtime allocator) and the thread-local `WorkspacePool`.  Every call the
facade makes to one of them is recorded, in program order, in a trace; what the
collaborator answers is taken from an environment that may answer differently
depending on everything that was called before.  `LOG(FATAL)` and a failed
`CHECK` end the process: they are an outcome of their own, after which nothing
more is executed.
-/

namespace dgl.runtime

/-! ## Types of the driver and of the runtime -/

/-- Driver status codes.  The source names seven of them; `hipErrorOther code`
stands for every other value of the driver's status type (out of memory,
launch failure, ...). -/
inductive hipError_t
  | hipSuccess
  | hipErrorInvalidValue
  | hipErrorNotInitialized
  | hipErrorDeinitialized
  | hipErrorNoDevice
  | hipErrorInvalidDevice
  | hipErrorInsufficientDriver
  | hipErrorOther (code : Nat)
  deriving DecidableEq, Repr

/-- Direction tags of the driver's asynchronous memcpy, as used by the source. -/
inductive hipMemcpyKind
  | hipMemcpyHostToDevice
  | hipMemcpyDeviceToHost
  | hipMemcpyDeviceToDevice
  deriving DecidableEq, Repr

/-- Memory type reported by the driver's pointer-attribute query. -/
inductive hipMemoryType
  | hipMemoryTypeHost
  | hipMemoryTypeDevice
  | hipMemoryTypeOther (code : Nat)
  deriving DecidableEq, Repr

/-- Device attributes the source asks the driver for. -/
inductive hipDeviceAttribute_t
  | hipDeviceAttributeMaxThreadsPerBlock
  | hipDeviceAttributeWarpSize
  | hipDeviceAttributeMaxSharedMemoryPerBlock
  | hipDeviceAttributeComputeCapabilityMajor
  | hipDeviceAttributeComputeCapabilityMinor
  | hipDeviceAttributeClockRate
  | hipDeviceAttributeMultiprocessorCount
  | hipDeviceAttributeMaxBlockDimX
  | hipDeviceAttributeMaxBlockDimY
  | hipDeviceAttributeMaxBlockDimZ
  deriving DecidableEq, Repr

/-- Modelled from the spec: the declaration of `DGLDeviceType`
(`dgl/runtime/c_runtime_api.h`) is not among the sources.  The spec speaks of
the host kind, the device kind of this backend and of "an unrecognized device
kind"; `other code` is every kind that is neither `kDGLCPU` nor `kDGLCUDA`. -/
inductive DGLDeviceType
  | kDGLCPU
  | kDGLCUDA
  | other (code : Nat)
  deriving DecidableEq, Repr

/-- Modelled from the spec: the declaration of `DGLContext`
(`dgl/runtime/c_runtime_api.h`) is not among the sources; the source reads its
two fields `device_type` and `device_id` (a C `int`). -/
structure DGLContext where
  device_type : DGLDeviceType
  device_id : Int
  deriving DecidableEq, Repr

/-- Modelled from the spec: the declaration of `DeviceAttrKind`
(`dgl/runtime/device_api.h`) is not among the sources; these are the kinds the
`switch` of `GetAttr` names and section 4.5 of the spec lists. -/
inductive DeviceAttrKind
  | kExist
  | kMaxThreadsPerBlock
  | kWarpSize
  | kMaxSharedMemoryPerBlock
  | kComputeVersion
  | kDeviceName
  | kMaxClockRate
  | kMultiProcessorCount
  | kMaxThreadDimensions
  deriving DecidableEq, Repr

/-- What `GetAttr` stores through `rv`: an integer or a string. -/
inductive DGLRetValue
  | int (value : Int)
  | str (text : String)
  deriving DecidableEq, Repr

/-- Pointers and `size_t` values are 64 bit wide. -/
def ptrWidth : Nat := 2 ^ 64

/-- The sum `static_cast<char*>(p) + offset`: pointers are addresses, the null
pointer is `0`, and the sum wraps at the address width. -/
def ptrAdd (p offset : Nat) : Nat := (p + offset) % ptrWidth

/-! ## Calls to the collaborators -/

/-- One call made by the facade to the driver, to the `TensorDispatcher` or to
the thread-local `WorkspacePool`, with the arguments it was made with.
Out-parameters are not arguments: what comes back through them is part of the
reply.  Handles (streams, events) and pointers are addresses.  Arguments that
are the same constant at every call site of the source are left out
(`hipStreamNonBlocking`, `hipHostRegisterDefault`, the flags `0` of
`hipStreamWaitEvent`). -/
inductive Call
  | hipGetDeviceCount
  | hipGetLastError
  | hipSetDevice (device_id : Int)
  | hipDeviceGetAttribute (attr : hipDeviceAttribute_t) (device_id : Int)
  | hipGetDeviceProperties (device_id : Int)
  | hipMalloc (nbytes : Nat)
  | hipFree (ptr : Nat)
  | hipMemcpyAsync (dst src size : Nat) (kind : hipMemcpyKind) (stream : Nat)
  | hipMemcpyPeerAsync (dst : Nat) (dstDevice : Int) (src : Nat) (srcDevice : Int)
      (size stream : Nat)
  | hipStreamCreateWithFlags
  | hipStreamDestroy (stream : Nat)
  | hipEventCreate
  | hipEventRecord (event stream : Nat)
  | hipStreamWaitEvent (stream event : Nat)
  | hipEventDestroy (event : Nat)
  | hipStreamSynchronize (stream : Nat)
  | hipHostRegister (ptr nbytes : Nat)
  | hipHostUnregister (ptr : Nat)
  | hipPointerGetAttributes (ptr : Nat)
  | TensorDispatcher_IsAvailable
  | CUDAAllocWorkspace (nbytes stream : Nat)
  | CUDAFreeWorkspace (ptr : Nat)
  | CUDAGetCurrentStream
  | CUDAHostAllocatorEmptyCache
  | CUDAAllocHostWorkspace (nbytes ctx deleter : Nat)
  | CUDAFreeHostWorkspace (deleter : Nat)
  | CUDARecordHostAlloc (ptr ctx stream : Nat) (device_id : Int)
  | pool_AllocWorkspace (ctx : DGLContext) (size : Nat)
  | pool_FreeWorkspace (ctx : DGLContext) (data : Nat)
  deriving DecidableEq, Repr

/-- What a collaborator answers to one call: the status it returns, and what it
returns or writes through an out-parameter (a pointer or handle, an integer, a
name, a memory type).  A call uses the fields that it has. -/
structure Reply where
  status : hipError_t
  ptr : Nat
  value : Int
  name : String
  type : hipMemoryType

/-- Modelled from the spec: `TensorDispatcher` (`dgl/runtime/tensordispatch.h`)
and `WorkspacePool` (`../workspace_pool.h`) are not among the sources, and the
driver is a library.  The environment of one facade call is what they answer:
`reply history call` is the answer to `call` when `history` lists the calls
made before it, and `tensorDispatcherAvailable` is the "external allocator
available" flag of section 3 of the spec, which no facade operation writes and
which is therefore the same at every probe of one facade call (it may differ
from one facade call to the next). -/
structure Env where
  reply : List Call → Call → Reply
  tensorDispatcherAvailable : Bool

/-! ## Outcomes and the trace -/

/-- The fatal errors of the source: a failed `CUDA_CALL` check (the message is
the driver's text for the status), and `LOG(FATAL)` or a failed `CHECK` with its
message.  For `IsPinned` the driver's text for the status is appended to the
message; the status is kept instead. -/
inductive Fatal
  | cuda (e : hipError_t)
  | log (message : String)
  | memoryStatus (e : hipError_t)
  deriving DecidableEq, Repr

/-- How a piece of the facade ends: it returns a value, it ends the process
with a fatal error, or its behaviour is undefined (`256 % 0`). -/
inductive Outcome (α : Type)
  | ok (value : α)
  | fatal (error : Fatal)
  | undefined
  deriving DecidableEq, Repr

/-- The result of running a piece of the facade: its outcome and the calls made
up to then, oldest first. -/
structure Run (α : Type) where
  outcome : Outcome α
  trace : List Call
  deriving DecidableEq, Repr

/-- A piece of the facade: from the calls made so far to its result. -/
def M (α : Type) : Type := List Call → Run α

/-- Runs a piece of the facade after the given calls. -/
def M.run {α : Type} (m : M α) (history : List Call) : Run α := m history

/-- Returning a value makes no call. -/
def M.ret {α : Type} (a : α) : M α := fun history => ⟨Outcome.ok a, history⟩

/-- Sequencing: the second piece runs only if the first one returned. -/
def M.seq {α β : Type} (m : M α) (f : α → M β) : M β := fun history =>
  match m history with
  | ⟨Outcome.ok a, t⟩ => f a t
  | ⟨Outcome.fatal e, t⟩ => ⟨Outcome.fatal e, t⟩
  | ⟨Outcome.undefined, t⟩ => ⟨Outcome.undefined, t⟩

instance : Monad M where
  pure := M.ret
  bind := M.seq

/-- The statement `LOG(FATAL) << message` and a failed `CHECK`. -/
def LOG_FATAL {α : Type} (error : Fatal) : M α := fun history =>
  ⟨Outcome.fatal error, history⟩

/-- Undefined behaviour of the source. -/
def undefinedBehaviour {α : Type} : M α := fun history =>
  ⟨Outcome.undefined, history⟩

/-- A call whose status the source does not check: it is recorded and its
reply is handed back. -/
def call (env : Env) (c : Call) : M Reply := fun history =>
  ⟨Outcome.ok (env.reply history c), history ++ [c]⟩

/-- The condition that `CUDA_CALL` checks. -/
def cudaCallPasses (e : hipError_t) : Bool :=
  e = hipError_t.hipSuccess || e = hipError_t.hipErrorDeinitialized

/-- The macro `CUDA_CALL(func)`: the call is made, and the process ends unless
its status is `hipSuccess` or `hipErrorDeinitialized`. -/
def CUDA_CALL (env : Env) (c : Call) : M Reply := do
  let r ← call env c
  if cudaCallPasses r.status then pure r else LOG_FATAL (Fatal.cuda r.status)

/-- `TensorDispatcher::Global()->IsAvailable()`. -/
def TensorDispatcher_IsAvailable (env : Env) : M Bool := do
  let _ ← call env Call.TensorDispatcher_IsAvailable
  pure env.tensorDispatcherAvailable

/-- The free function `getCurrentCUDAStream`. -/
def getCurrentCUDAStream (env : Env) : M Nat := do
  if (← TensorDispatcher_IsAvailable env) then
    let r ← call env Call.CUDAGetCurrentStream
    pure r.ptr
  else
    pure 0

/-! ## The facade -/

/-- The state of the facade object: its only data member. -/
structure CUDADeviceAPI where
  is_available_ : Bool
  deriving DecidableEq, Repr

/-- The constructor: the device count is probed once. -/
def CUDADeviceAPI.new (env : Env) : M CUDADeviceAPI := do
  let r ← call env Call.hipGetDeviceCount
  let count ← (match r.status with
    | hipError_t.hipSuccess => (pure r.value : M Int)
    | _ => do
      let _ ← call env Call.hipGetLastError
      pure 0)
  pure ⟨decide (count > 0)⟩

/-- The method `IsAvailable`. -/
def CUDADeviceAPI.IsAvailable (self : CUDADeviceAPI) : M Bool :=
  pure self.is_available_

/-- The method `SetDevice`. -/
def SetDevice (env : Env) (ctx : DGLContext) : M Unit := do
  let _ ← CUDA_CALL env (Call.hipSetDevice ctx.device_id)
  pure ()

/-- The private helper `GPUCopy`. -/
def GPUCopy (env : Env) (from_ to_ size : Nat) (kind : hipMemcpyKind) (stream : Nat) :
    M Unit := do
  let _ ← CUDA_CALL env (Call.hipMemcpyAsync to_ from_ size kind stream)
  if stream = 0 ∧ kind = hipMemcpyKind.hipMemcpyDeviceToHost then
    let _ ← CUDA_CALL env (Call.hipStreamSynchronize stream)
    pure ()
  else
    pure ()

/-- The overload of `CopyDataFromTo` that takes the stream (the unused
`type_hint` is left out). -/
def CopyDataFromTo (env : Env) (from_ from_offset to_ to_offset size : Nat)
    (ctx_from ctx_to : DGLContext) (stream : Nat) : M Unit :=
  let cu_stream := stream
  let from_ := ptrAdd from_ from_offset
  let to_ := ptrAdd to_ to_offset
  if ctx_from.device_type = DGLDeviceType.kDGLCUDA ∧
      ctx_to.device_type = DGLDeviceType.kDGLCUDA then do
    let _ ← CUDA_CALL env (Call.hipSetDevice ctx_from.device_id)
    if ctx_from.device_id = ctx_to.device_id then
      GPUCopy env from_ to_ size hipMemcpyKind.hipMemcpyDeviceToDevice cu_stream
    else do
      let _ ← CUDA_CALL env (Call.hipMemcpyPeerAsync to_ ctx_to.device_id from_
        ctx_from.device_id size cu_stream)
      pure ()
  else if ctx_from.device_type = DGLDeviceType.kDGLCUDA ∧
      ctx_to.device_type = DGLDeviceType.kDGLCPU then do
    let _ ← CUDA_CALL env (Call.hipSetDevice ctx_from.device_id)
    GPUCopy env from_ to_ size hipMemcpyKind.hipMemcpyDeviceToHost cu_stream
  else if ctx_from.device_type = DGLDeviceType.kDGLCPU ∧
      ctx_to.device_type = DGLDeviceType.kDGLCUDA then do
    let _ ← CUDA_CALL env (Call.hipSetDevice ctx_to.device_id)
    GPUCopy env from_ to_ size hipMemcpyKind.hipMemcpyHostToDevice cu_stream
  else
    LOG_FATAL (Fatal.log "expect copy from/to GPU or between GPU")

/-- The method `GetStream`. -/
def GetStream (env : Env) : M Nat := getCurrentCUDAStream env

/-- The overload of `CopyDataFromTo` without a stream: the copy is made on the
current stream. -/
def CopyDataFromTo_current (env : Env) (from_ from_offset to_ to_offset size : Nat)
    (ctx_from ctx_to : DGLContext) : M Unit := do
  let stream ← GetStream env
  CopyDataFromTo env from_ from_offset to_ to_offset size ctx_from ctx_to stream

/-- The method `GetAttr`; the result is what it stores through `rv`. -/
def GetAttr (env : Env) (ctx : DGLContext) (kind : DeviceAttrKind) : M DGLRetValue :=
  match kind with
  | DeviceAttrKind.kExist => do
    let r ← call env (Call.hipDeviceGetAttribute
      hipDeviceAttribute_t.hipDeviceAttributeMaxThreadsPerBlock ctx.device_id)
    pure (DGLRetValue.int (if r.status = hipError_t.hipSuccess then 1 else 0))
  | DeviceAttrKind.kMaxThreadsPerBlock => do
    let r ← CUDA_CALL env (Call.hipDeviceGetAttribute
      hipDeviceAttribute_t.hipDeviceAttributeMaxThreadsPerBlock ctx.device_id)
    pure (DGLRetValue.int r.value)
  | DeviceAttrKind.kWarpSize => do
    let r ← CUDA_CALL env (Call.hipDeviceGetAttribute
      hipDeviceAttribute_t.hipDeviceAttributeWarpSize ctx.device_id)
    pure (DGLRetValue.int r.value)
  | DeviceAttrKind.kMaxSharedMemoryPerBlock => do
    let r ← CUDA_CALL env (Call.hipDeviceGetAttribute
      hipDeviceAttribute_t.hipDeviceAttributeMaxSharedMemoryPerBlock ctx.device_id)
    pure (DGLRetValue.int r.value)
  | DeviceAttrKind.kComputeVersion => do
    let major ← CUDA_CALL env (Call.hipDeviceGetAttribute
      hipDeviceAttribute_t.hipDeviceAttributeComputeCapabilityMajor ctx.device_id)
    let minor ← CUDA_CALL env (Call.hipDeviceGetAttribute
      hipDeviceAttribute_t.hipDeviceAttributeComputeCapabilityMinor ctx.device_id)
    pure (DGLRetValue.str (toString major.value ++ "." ++ toString minor.value))
  | DeviceAttrKind.kDeviceName => do
    let props ← CUDA_CALL env (Call.hipGetDeviceProperties ctx.device_id)
    pure (DGLRetValue.str props.name)
  | DeviceAttrKind.kMaxClockRate => do
    let r ← CUDA_CALL env (Call.hipDeviceGetAttribute
      hipDeviceAttribute_t.hipDeviceAttributeClockRate ctx.device_id)
    pure (DGLRetValue.int r.value)
  | DeviceAttrKind.kMultiProcessorCount => do
    let r ← CUDA_CALL env (Call.hipDeviceGetAttribute
      hipDeviceAttribute_t.hipDeviceAttributeMultiprocessorCount ctx.device_id)
    pure (DGLRetValue.int r.value)
  | DeviceAttrKind.kMaxThreadDimensions => do
    let d0 ← CUDA_CALL env (Call.hipDeviceGetAttribute
      hipDeviceAttribute_t.hipDeviceAttributeMaxBlockDimX ctx.device_id)
    let d1 ← CUDA_CALL env (Call.hipDeviceGetAttribute
      hipDeviceAttribute_t.hipDeviceAttributeMaxBlockDimY ctx.device_id)
    let d2 ← CUDA_CALL env (Call.hipDeviceGetAttribute
      hipDeviceAttribute_t.hipDeviceAttributeMaxBlockDimZ ctx.device_id)
    pure (DGLRetValue.str ("[" ++ toString d0.value ++ ", " ++ toString d1.value ++ ", " ++
      toString d2.value ++ "]"))

/-- The method `AllocDataSpace` (the unused `type_hint` is left out).  The
remainder `256 % alignment` is undefined for `alignment == 0`. -/
def AllocDataSpace (env : Env) (ctx : DGLContext) (nbytes alignment : Nat) : M Nat := do
  SetDevice env ctx
  if (← TensorDispatcher_IsAvailable env) then
    let stream ← getCurrentCUDAStream env
    let r ← call env (Call.CUDAAllocWorkspace nbytes stream)
    pure r.ptr
  else if alignment = 0 then
    undefinedBehaviour
  else if 256 % alignment ≠ 0 then
    LOG_FATAL (Fatal.log "CUDA space is aligned at 256 bytes")
  else
    let ret ← CUDA_CALL env (Call.hipMalloc nbytes)
    pure ret.ptr

/-- The method `FreeDataSpace`. -/
def FreeDataSpace (env : Env) (ctx : DGLContext) (ptr : Nat) : M Unit := do
  SetDevice env ctx
  if (← TensorDispatcher_IsAvailable env) then
    let _ ← call env (Call.CUDAFreeWorkspace ptr)
    pure ()
  else
    let _ ← CUDA_CALL env (Call.hipFree ptr)
    pure ()

/-- The method `RecordedCopyDataFromTo`. -/
def RecordedCopyDataFromTo (env : Env) (from_ from_offset to_ to_offset size : Nat)
    (ctx_from ctx_to : DGLContext) (pytorch_ctx : Nat) : M Unit := do
  let stream ← GetStream env
  CopyDataFromTo env from_ from_offset to_ to_offset size ctx_from ctx_to stream
  if (← TensorDispatcher_IsAvailable env) then
    let custream := stream
    let ptr := if ctx_to.device_type = DGLDeviceType.kDGLCPU then to_ else from_
    let id := if ctx_to.device_type = DGLDeviceType.kDGLCPU then ctx_from.device_id
      else ctx_to.device_id
    let _ ← call env (Call.CUDARecordHostAlloc ptr pytorch_ctx custream id)
    pure ()
  else
    pure ()

/-- The method `CreateStream`. -/
def CreateStream (env : Env) (ctx : DGLContext) : M Nat := do
  let _ ← CUDA_CALL env (Call.hipSetDevice ctx.device_id)
  let retval ← CUDA_CALL env Call.hipStreamCreateWithFlags
  pure retval.ptr

/-- The method `FreeStream`. -/
def FreeStream (env : Env) (ctx : DGLContext) (stream : Nat) : M Unit := do
  let _ ← CUDA_CALL env (Call.hipSetDevice ctx.device_id)
  let cu_stream := stream
  let _ ← CUDA_CALL env (Call.hipStreamDestroy cu_stream)
  pure ()

/-- The method `SyncStreamFromTo`. -/
def SyncStreamFromTo (env : Env) (ctx : DGLContext) (event_src event_dst : Nat) : M Unit := do
  let _ ← CUDA_CALL env (Call.hipSetDevice ctx.device_id)
  let src_stream := event_src
  let dst_stream := event_dst
  let evt ← CUDA_CALL env Call.hipEventCreate
  let _ ← CUDA_CALL env (Call.hipEventRecord evt.ptr src_stream)
  let _ ← CUDA_CALL env (Call.hipStreamWaitEvent dst_stream evt.ptr)
  let _ ← CUDA_CALL env (Call.hipEventDestroy evt.ptr)
  pure ()

/-- The method `StreamSync`. -/
def StreamSync (env : Env) (ctx : DGLContext) (stream : Nat) : M Unit := do
  let _ ← CUDA_CALL env (Call.hipSetDevice ctx.device_id)
  let _ ← CUDA_CALL env (Call.hipStreamSynchronize stream)
  pure ()

/-- The method `SetStream`: its body is empty. -/
def SetStream (_ctx : DGLContext) (_stream : Nat) : M Unit := pure ()

/-- The method `PinData`. -/
def PinData (env : Env) (ptr nbytes : Nat) : M Bool :=
  if ptr = 0 ∨ nbytes = 0 then pure false
  else do
    if (← TensorDispatcher_IsAvailable env) then
      let _ ← call env Call.CUDAHostAllocatorEmptyCache
      pure ()
    else
      pure ()
    let _ ← CUDA_CALL env (Call.hipHostRegister ptr nbytes)
    pure true

/-- The method `UnpinData`. -/
def UnpinData (env : Env) (ptr : Nat) : M Unit :=
  if ptr = 0 then pure ()
  else do
    let _ ← CUDA_CALL env (Call.hipHostUnregister ptr)
    pure ()

/-- The message of the `CHECK` of the two pinned-data-space methods. -/
def cachingHostAllocatorMessage : String :=
  "CachingHostAllocator is not available in the current backend " ++
  "PyTorch. Please update the PyTorch version to 1.11+"

/-- The method `AllocPinnedDataSpace`; `ctx` and `deleter` are the addresses
the allocator writes its context and deleter to. -/
def AllocPinnedDataSpace (env : Env) (nbytes ctx deleter : Nat) : M Nat :=
  if nbytes = 0 then pure 0
  else do
    if (← TensorDispatcher_IsAvailable env) then
      let r ← call env (Call.CUDAAllocHostWorkspace nbytes ctx deleter)
      pure r.ptr
    else
      LOG_FATAL (Fatal.log cachingHostAllocatorMessage)

/-- The method `FreePinnedDataSpace`. -/
def FreePinnedDataSpace (env : Env) (deleter : Nat) : M Unit := do
  if (← TensorDispatcher_IsAvailable env) then
    let _ ← call env (Call.CUDAFreeHostWorkspace deleter)
    pure ()
  else
    LOG_FATAL (Fatal.log cachingHostAllocatorMessage)

/-- The method `IsPinned`: its result and the facade after it. -/
def CUDADeviceAPI.IsPinned (self : CUDADeviceAPI) (env : Env) (ptr : Nat) :
    M (Bool × CUDADeviceAPI) :=
  if !self.is_available_ then pure (false, self)
  else do
    let attr ← call env (Call.hipPointerGetAttributes ptr)
    let status := attr.status
    let result := false
    match status with
    | hipError_t.hipErrorInvalidValue => do
      let _ ← call env Call.hipGetLastError
      pure (result, self)
    | hipError_t.hipSuccess =>
      pure (decide (attr.type = hipMemoryType.hipMemoryTypeHost), self)
    | hipError_t.hipErrorNotInitialized
    | hipError_t.hipErrorNoDevice
    | hipError_t.hipErrorInsufficientDriver
    | hipError_t.hipErrorInvalidDevice => do
      let self := { self with is_available_ := false }
      let _ ← call env Call.hipGetLastError
      pure (result, self)
    | _ => LOG_FATAL (Fatal.memoryStatus status)

/-- The method `AllocWorkspace` (the unused `type_hint` is left out). -/
def AllocWorkspace (env : Env) (ctx : DGLContext) (size : Nat) : M Nat := do
  SetDevice env ctx
  if (← TensorDispatcher_IsAvailable env) then
    let stream ← getCurrentCUDAStream env
    let r ← call env (Call.CUDAAllocWorkspace size stream)
    pure r.ptr
  else
    let r ← call env (Call.pool_AllocWorkspace ctx size)
    pure r.ptr

/-- The method `FreeWorkspace`. -/
def FreeWorkspace (env : Env) (ctx : DGLContext) (data : Nat) : M Unit := do
  SetDevice env ctx
  if (← TensorDispatcher_IsAvailable env) then
    let _ ← call env (Call.CUDAFreeWorkspace data)
    pure ()
  else
    let _ ← call env (Call.pool_FreeWorkspace ctx data)
    pure ()

/-! ## Sequences of facade calls -/

/-- A public operation of the facade with its arguments. -/
inductive Op
  | IsAvailable
  | SetDevice (ctx : DGLContext)
  | GetAttr (ctx : DGLContext) (kind : DeviceAttrKind)
  | AllocDataSpace (ctx : DGLContext) (nbytes alignment : Nat)
  | FreeDataSpace (ctx : DGLContext) (ptr : Nat)
  | CopyDataFromTo (from_ from_offset to_ to_offset size : Nat) (ctx_from ctx_to : DGLContext)
      (stream : Nat)
  | CopyDataFromTo_current (from_ from_offset to_ to_offset size : Nat)
      (ctx_from ctx_to : DGLContext)
  | RecordedCopyDataFromTo (from_ from_offset to_ to_offset size : Nat)
      (ctx_from ctx_to : DGLContext) (pytorch_ctx : Nat)
  | CreateStream (ctx : DGLContext)
  | FreeStream (ctx : DGLContext) (stream : Nat)
  | SyncStreamFromTo (ctx : DGLContext) (event_src event_dst : Nat)
  | StreamSync (ctx : DGLContext) (stream : Nat)
  | SetStream (ctx : DGLContext) (stream : Nat)
  | GetStream
  | PinData (ptr nbytes : Nat)
  | UnpinData (ptr : Nat)
  | AllocPinnedDataSpace (nbytes ctx deleter : Nat)
  | FreePinnedDataSpace (deleter : Nat)
  | IsPinned (ptr : Nat)
  | AllocWorkspace (ctx : DGLContext) (size : Nat)
  | FreeWorkspace (ctx : DGLContext) (data : Nat)
  deriving DecidableEq, Repr

/-- What an operation returns. -/
inductive Value
  | unit
  | bool (b : Bool)
  | ptr (p : Nat)
  | ret (rv : DGLRetValue)
  deriving DecidableEq, Repr

/-- One operation on the facade: what it returns and the facade after it. -/
def CUDADeviceAPI.invoke (self : CUDADeviceAPI) (env : Env) : Op → M (Value × CUDADeviceAPI)
  | Op.IsAvailable => do
    let b ← self.IsAvailable
    pure (Value.bool b, self)
  | Op.SetDevice ctx => do
    SetDevice env ctx
    pure (Value.unit, self)
  | Op.GetAttr ctx kind => do
    let rv ← GetAttr env ctx kind
    pure (Value.ret rv, self)
  | Op.AllocDataSpace ctx nbytes alignment => do
    let p ← AllocDataSpace env ctx nbytes alignment
    pure (Value.ptr p, self)
  | Op.FreeDataSpace ctx ptr => do
    FreeDataSpace env ctx ptr
    pure (Value.unit, self)
  | Op.CopyDataFromTo from_ from_offset to_ to_offset size ctx_from ctx_to stream => do
    CopyDataFromTo env from_ from_offset to_ to_offset size ctx_from ctx_to stream
    pure (Value.unit, self)
  | Op.CopyDataFromTo_current from_ from_offset to_ to_offset size ctx_from ctx_to => do
    CopyDataFromTo_current env from_ from_offset to_ to_offset size ctx_from ctx_to
    pure (Value.unit, self)
  | Op.RecordedCopyDataFromTo from_ from_offset to_ to_offset size ctx_from ctx_to
      pytorch_ctx => do
    RecordedCopyDataFromTo env from_ from_offset to_ to_offset size ctx_from ctx_to pytorch_ctx
    pure (Value.unit, self)
  | Op.CreateStream ctx => do
    let s ← CreateStream env ctx
    pure (Value.ptr s, self)
  | Op.FreeStream ctx stream => do
    FreeStream env ctx stream
    pure (Value.unit, self)
  | Op.SyncStreamFromTo ctx event_src event_dst => do
    SyncStreamFromTo env ctx event_src event_dst
    pure (Value.unit, self)
  | Op.StreamSync ctx stream => do
    StreamSync env ctx stream
    pure (Value.unit, self)
  | Op.SetStream ctx stream => do
    SetStream ctx stream
    pure (Value.unit, self)
  | Op.GetStream => do
    let s ← GetStream env
    pure (Value.ptr s, self)
  | Op.PinData ptr nbytes => do
    let b ← PinData env ptr nbytes
    pure (Value.bool b, self)
  | Op.UnpinData ptr => do
    UnpinData env ptr
    pure (Value.unit, self)
  | Op.AllocPinnedDataSpace nbytes ctx deleter => do
    let p ← AllocPinnedDataSpace env nbytes ctx deleter
    pure (Value.ptr p, self)
  | Op.FreePinnedDataSpace deleter => do
    FreePinnedDataSpace env deleter
    pure (Value.unit, self)
  | Op.IsPinned ptr => do
    let (b, self) ← self.IsPinned env ptr
    pure (Value.bool b, self)
  | Op.AllocWorkspace ctx size => do
    let p ← AllocWorkspace env ctx size
    pure (Value.ptr p, self)
  | Op.FreeWorkspace ctx data => do
    FreeWorkspace env ctx data
    pure (Value.unit, self)

/-- A sequence of operations on the facade, each in the environment it meets;
the result is the facade after the last one.  A fatal error ends the process,
so nothing after it is executed. -/
def CUDADeviceAPI.invokeAll (self : CUDADeviceAPI) : List (Env × Op) → M CUDADeviceAPI
  | [] => pure self
  | (env, op) :: rest => do
    let (_, self) ← self.invoke env op
    self.invokeAll rest

/-! ## Vocabulary of the statements -/

/-- The three directions `CopyDataFromTo` supports: device to device, device to
host and host to device. -/
def supportedCopy (ctx_from ctx_to : DGLContext) : Prop :=
  (ctx_from.device_type = DGLDeviceType.kDGLCUDA ∧
      ctx_to.device_type = DGLDeviceType.kDGLCUDA) ∨
    (ctx_from.device_type = DGLDeviceType.kDGLCUDA ∧
      ctx_to.device_type = DGLDeviceType.kDGLCPU) ∨
    (ctx_from.device_type = DGLDeviceType.kDGLCPU ∧
      ctx_to.device_type = DGLDeviceType.kDGLCUDA)

instance (ctx_from ctx_to : DGLContext) : Decidable (supportedCopy ctx_from ctx_to) := by
  unfold supportedCopy
  infer_instance

/-- The direction device to host. -/
def deviceToHost (ctx_from ctx_to : DGLContext) : Prop :=
  ctx_from.device_type = DGLDeviceType.kDGLCUDA ∧ ctx_to.device_type = DGLDeviceType.kDGLCPU

instance (ctx_from ctx_to : DGLContext) : Decidable (deviceToHost ctx_from ctx_to) := by
  unfold deviceToHost
  infer_instance

/-- The device side of a supported copy: the source device, and the destination
device when the source is the host. -/
def copyDevice (ctx_from ctx_to : DGLContext) : Int :=
  if ctx_from.device_type = DGLDeviceType.kDGLCUDA then ctx_from.device_id
  else ctx_to.device_id

/-- The routing table of section 4.4 of the spec, as a function: the
asynchronous copy of a supported direction. -/
def specCopyCall (from_ from_offset to_ to_offset size : Nat) (ctx_from ctx_to : DGLContext)
    (stream : Nat) : Call :=
  if ctx_from.device_type = DGLDeviceType.kDGLCUDA ∧
      ctx_to.device_type = DGLDeviceType.kDGLCUDA then
    if ctx_from.device_id = ctx_to.device_id then
      Call.hipMemcpyAsync (ptrAdd to_ to_offset) (ptrAdd from_ from_offset) size
        hipMemcpyKind.hipMemcpyDeviceToDevice stream
    else
      Call.hipMemcpyPeerAsync (ptrAdd to_ to_offset) ctx_to.device_id
        (ptrAdd from_ from_offset) ctx_from.device_id size stream
  else if ctx_from.device_type = DGLDeviceType.kDGLCUDA then
    Call.hipMemcpyAsync (ptrAdd to_ to_offset) (ptrAdd from_ from_offset) size
      hipMemcpyKind.hipMemcpyDeviceToHost stream
  else
    Call.hipMemcpyAsync (ptrAdd to_ to_offset) (ptrAdd from_ from_offset) size
      hipMemcpyKind.hipMemcpyHostToDevice stream

/-- The record call of the external allocator. -/
def isRecordCall : Call → Bool
  | Call.CUDARecordHostAlloc _ _ _ _ => true
  | _ => false

/-- The allocation and the free of the driver heap. -/
def isDriverHeapCall : Call → Bool
  | Call.hipMalloc _ => true
  | Call.hipFree _ => true
  | _ => false

/-- The workspace allocation and the workspace free of the external allocator. -/
def isExternalWorkspaceCall : Call → Bool
  | Call.CUDAAllocWorkspace _ _ => true
  | Call.CUDAFreeWorkspace _ => true
  | _ => false

/-- The driver calls that the source makes only inside `CUDA_CALL`: set-device,
device allocation and free, the asynchronous copies, stream creation,
destruction and synchronization, the event calls, host register and
unregister. -/
def isCheckedCall : Call → Bool
  | Call.hipSetDevice _ => true
  | Call.hipMalloc _ => true
  | Call.hipFree _ => true
  | Call.hipMemcpyAsync _ _ _ _ _ => true
  | Call.hipMemcpyPeerAsync _ _ _ _ _ _ => true
  | Call.hipStreamCreateWithFlags => true
  | Call.hipStreamDestroy _ => true
  | Call.hipStreamSynchronize _ => true
  | Call.hipEventCreate => true
  | Call.hipEventRecord _ _ => true
  | Call.hipStreamWaitEvent _ _ => true
  | Call.hipEventDestroy _ => true
  | Call.hipHostRegister _ _ => true
  | Call.hipHostUnregister _ => true
  | _ => false

/-- A call that keeps to one allocation source: it is no driver-heap call when
the external allocator is available, and no workspace call of the external
allocator when it is not. -/
def keepsToSource (available : Bool) (c : Call) : Prop :=
  (available = true → isDriverHeapCall c = false) ∧
    (available = false → isExternalWorkspaceCall c = false)

/-- Every call that a piece of the facade makes, after whatever was called
before, satisfies `Q`. -/
def Emits (Q : Call → Prop) {α : Type} (m : M α) : Prop :=
  ∀ h : List Call, ∃ new : List Call, (m.run h).trace = h ++ new ∧ ∀ c ∈ new, Q c

/-- A piece of the facade ends fatally at a failing checked call: whenever one
of the calls it makes is a checked call whose status does not pass the check of
`CUDA_CALL`, the piece ends with the fatal error of that status and the call is
the last one it makes. -/
def FatalOnFailure (env : Env) {α : Type} (m : M α) : Prop :=
  ∀ h : List Call, ∃ new : List Call, (m.run h).trace = h ++ new ∧
    ∀ (pre : List Call) (c : Call) (post : List Call), new = pre ++ c :: post →
      isCheckedCall c = true →
      cudaCallPasses (env.reply (h ++ pre) c).status = false →
      (m.run h).outcome = Outcome.fatal (Fatal.cuda (env.reply (h ++ pre) c).status) ∧
        post = []

/-- A reply with the given status, pointer `4096`, integer `1` and memory type host. -/
def replyWith (status : hipError_t) : Reply :=
  ⟨status, 4096, 1, "gfx90a", hipMemoryType.hipMemoryTypeHost⟩

/-- An environment in which every call is answered with the given status. -/
def envAll (status : hipError_t) (available : Bool) : Env :=
  ⟨fun _ _ => replyWith status, available⟩

/-- An environment in which one call is answered with the given status and
every other call with `hipSuccess`. -/
def envFailingAt (failing : Call) (status : hipError_t) (available : Bool) : Env :=
  ⟨fun _ c => if c = failing then replyWith status else replyWith hipError_t.hipSuccess,
    available⟩

/-- A device context of this backend. -/
def gpu (device_id : Int) : DGLContext := ⟨DGLDeviceType.kDGLCUDA, device_id⟩

/-- The host context. -/
def cpu : DGLContext := ⟨DGLDeviceType.kDGLCPU, 0⟩

/-! ## Running the pieces -/

@[simp] theorem M.run_pure {α : Type} (a : α) (h : List Call) :
    (pure a : M α).run h = ⟨Outcome.ok a, h⟩ := rfl

@[simp] theorem M.run_LOG_FATAL {α : Type} (e : Fatal) (h : List Call) :
    (LOG_FATAL e : M α).run h = ⟨Outcome.fatal e, h⟩ := rfl

@[simp] theorem M.run_undefinedBehaviour {α : Type} (h : List Call) :
    (undefinedBehaviour : M α).run h = ⟨Outcome.undefined, h⟩ := rfl

@[simp] theorem M.run_call (env : Env) (c : Call) (h : List Call) :
    (call env c).run h = ⟨Outcome.ok (env.reply h c), h ++ [c]⟩ := rfl

theorem M.run_bind {α β : Type} (m : M α) (f : α → M β) (h : List Call) :
    (m >>= f).run h =
      match m.run h with
      | ⟨Outcome.ok a, t⟩ => (f a).run t
      | ⟨Outcome.fatal e, t⟩ => ⟨Outcome.fatal e, t⟩
      | ⟨Outcome.undefined, t⟩ => ⟨Outcome.undefined, t⟩ := rfl

@[simp] theorem M.run_bind_call {β : Type} (env : Env) (c : Call) (f : Reply → M β)
    (h : List Call) : (call env c >>= f).run h = (f (env.reply h c)).run (h ++ [c]) := rfl

@[simp] theorem M.run_bind_pure {α β : Type} (a : α) (f : α → M β) (h : List Call) :
    ((pure a : M α) >>= f).run h = (f a).run h := rfl

@[simp] theorem M.run_bind_LOG_FATAL {α β : Type} (e : Fatal) (f : α → M β) (h : List Call) :
    ((LOG_FATAL e : M α) >>= f).run h = ⟨Outcome.fatal e, h⟩ := rfl

theorem M.run_ite {α : Type} (c : Prop) [Decidable c] (a b : M α) (h : List Call) :
    (if c then a else b).run h = if c then a.run h else b.run h := by
  split <;> rfl

theorem run_CUDA_CALL (env : Env) (c : Call) (h : List Call) :
    (CUDA_CALL env c).run h =
      ⟨if cudaCallPasses (env.reply h c).status then Outcome.ok (env.reply h c)
        else Outcome.fatal (Fatal.cuda (env.reply h c).status), h ++ [c]⟩ := by
  unfold CUDA_CALL
  simp only [M.run_bind_call]
  split <;> simp

theorem run_bind_CUDA_CALL {β : Type} (env : Env) (c : Call) (f : Reply → M β)
    (h : List Call) :
    (CUDA_CALL env c >>= f).run h =
      if cudaCallPasses (env.reply h c).status then (f (env.reply h c)).run (h ++ [c])
      else ⟨Outcome.fatal (Fatal.cuda (env.reply h c).status), h ++ [c]⟩ := by
  rw [M.run_bind, run_CUDA_CALL]
  by_cases hp : cudaCallPasses (env.reply h c).status = true <;> simp [hp]

theorem run_TensorDispatcher_IsAvailable (env : Env) (h : List Call) :
    (TensorDispatcher_IsAvailable env).run h =
      ⟨Outcome.ok env.tensorDispatcherAvailable, h ++ [Call.TensorDispatcher_IsAvailable]⟩ := rfl

theorem run_bind_TensorDispatcher_IsAvailable {β : Type} (env : Env) (f : Bool → M β)
    (h : List Call) :
    (TensorDispatcher_IsAvailable env >>= f).run h =
      (f env.tensorDispatcherAvailable).run (h ++ [Call.TensorDispatcher_IsAvailable]) := rfl

theorem run_getCurrentCUDAStream (env : Env) (h : List Call) :
    (getCurrentCUDAStream env).run h =
      if env.tensorDispatcherAvailable then
        ⟨Outcome.ok (env.reply (h ++ [Call.TensorDispatcher_IsAvailable])
          Call.CUDAGetCurrentStream).ptr,
          h ++ [Call.TensorDispatcher_IsAvailable, Call.CUDAGetCurrentStream]⟩
      else ⟨Outcome.ok 0, h ++ [Call.TensorDispatcher_IsAvailable]⟩ := by
  unfold getCurrentCUDAStream
  rw [run_bind_TensorDispatcher_IsAvailable]
  cases env.tensorDispatcherAvailable <;> simp

theorem run_bind_getCurrentCUDAStream {β : Type} (env : Env) (f : Nat → M β)
    (h : List Call) :
    (getCurrentCUDAStream env >>= f).run h =
      if env.tensorDispatcherAvailable then
        (f (env.reply (h ++ [Call.TensorDispatcher_IsAvailable])
          Call.CUDAGetCurrentStream).ptr).run
          (h ++ [Call.TensorDispatcher_IsAvailable, Call.CUDAGetCurrentStream])
      else (f 0).run (h ++ [Call.TensorDispatcher_IsAvailable]) := by
  rw [M.run_bind, run_getCurrentCUDAStream]
  cases env.tensorDispatcherAvailable <;> simp

theorem run_GPUCopy (env : Env) (from_ to_ size : Nat) (kind : hipMemcpyKind) (stream : Nat)
    (h : List Call) :
    (GPUCopy env from_ to_ size kind stream).run h =
      if cudaCallPasses (env.reply h (Call.hipMemcpyAsync to_ from_ size kind stream)).status then
        if stream = 0 ∧ kind = hipMemcpyKind.hipMemcpyDeviceToHost then
          ⟨if cudaCallPasses (env.reply
              (h ++ [Call.hipMemcpyAsync to_ from_ size kind stream])
              (Call.hipStreamSynchronize stream)).status then Outcome.ok ()
            else Outcome.fatal (Fatal.cuda (env.reply
              (h ++ [Call.hipMemcpyAsync to_ from_ size kind stream])
              (Call.hipStreamSynchronize stream)).status),
            h ++ [Call.hipMemcpyAsync to_ from_ size kind stream,
              Call.hipStreamSynchronize stream]⟩
        else ⟨Outcome.ok (), h ++ [Call.hipMemcpyAsync to_ from_ size kind stream]⟩
      else ⟨Outcome.fatal (Fatal.cuda
        (env.reply h (Call.hipMemcpyAsync to_ from_ size kind stream)).status),
        h ++ [Call.hipMemcpyAsync to_ from_ size kind stream]⟩ := by
  unfold GPUCopy
  rw [run_bind_CUDA_CALL]
  split
  · rw [M.run_ite]
    split
    · rw [run_bind_CUDA_CALL]
      split <;> simp_all
    · simp
  · rfl

/-- The stream overload of `CopyDataFromTo` on a supported direction with a
passing set-device call: the device is selected, then the copy is made. -/
theorem run_CopyDataFromTo_supported (env : Env) (from_ from_offset to_ to_offset size : Nat)
    (ctx_from ctx_to : DGLContext) (stream : Nat) (history : List Call)
    (hs : supportedCopy ctx_from ctx_to)
    (hdev : cudaCallPasses (env.reply history
      (Call.hipSetDevice (copyDevice ctx_from ctx_to))).status = true) :
    (CopyDataFromTo env from_ from_offset to_ to_offset size ctx_from ctx_to stream).run history =
      if ctx_from.device_type = DGLDeviceType.kDGLCUDA ∧
          ctx_to.device_type = DGLDeviceType.kDGLCUDA then
        if ctx_from.device_id = ctx_to.device_id then
          (GPUCopy env (ptrAdd from_ from_offset) (ptrAdd to_ to_offset) size
            hipMemcpyKind.hipMemcpyDeviceToDevice stream).run
            (history ++ [Call.hipSetDevice ctx_from.device_id])
        else
          ⟨if cudaCallPasses (env.reply (history ++ [Call.hipSetDevice ctx_from.device_id])
              (Call.hipMemcpyPeerAsync (ptrAdd to_ to_offset) ctx_to.device_id
                (ptrAdd from_ from_offset) ctx_from.device_id size stream)).status
            then Outcome.ok ()
            else Outcome.fatal (Fatal.cuda (env.reply
              (history ++ [Call.hipSetDevice ctx_from.device_id])
              (Call.hipMemcpyPeerAsync (ptrAdd to_ to_offset) ctx_to.device_id
                (ptrAdd from_ from_offset) ctx_from.device_id size stream)).status),
            history ++ [Call.hipSetDevice ctx_from.device_id,
              Call.hipMemcpyPeerAsync (ptrAdd to_ to_offset) ctx_to.device_id
                (ptrAdd from_ from_offset) ctx_from.device_id size stream]⟩
      else if ctx_from.device_type = DGLDeviceType.kDGLCUDA then
        (GPUCopy env (ptrAdd from_ from_offset) (ptrAdd to_ to_offset) size
          hipMemcpyKind.hipMemcpyDeviceToHost stream).run
          (history ++ [Call.hipSetDevice ctx_from.device_id])
      else
        (GPUCopy env (ptrAdd from_ from_offset) (ptrAdd to_ to_offset) size
          hipMemcpyKind.hipMemcpyHostToDevice stream).run
          (history ++ [Call.hipSetDevice ctx_to.device_id]) := by
  unfold CopyDataFromTo
  unfold supportedCopy at hs
  unfold copyDevice at hdev
  rcases hs with ⟨h1, h2⟩ | ⟨h1, h2⟩ | ⟨h1, h2⟩
  · simp only [h1, h2, and_self, if_true] at hdev ⊢
    rw [run_bind_CUDA_CALL, if_pos hdev]
    by_cases hid : ctx_from.device_id = ctx_to.device_id
    · simp only [hid, if_true]
    · simp only [hid, if_false]
      rw [run_bind_CUDA_CALL]
      split <;> simp_all
  · simp only [h1, h2, if_true] at hdev ⊢
    simp only [reduceCtorEq, and_false, and_self, if_false, if_true]
    rw [run_bind_CUDA_CALL, if_pos hdev]
  · simp only [h1, h2] at hdev ⊢
    simp only [reduceCtorEq, false_and, and_false, and_self, if_false, if_true] at hdev ⊢
    rw [run_bind_CUDA_CALL, if_pos hdev]

/-- The stream overload of `CopyDataFromTo` on a supported direction with a
failing set-device call: the process ends right after that call. -/
theorem run_CopyDataFromTo_device_fails (env : Env)
    (from_ from_offset to_ to_offset size : Nat) (ctx_from ctx_to : DGLContext) (stream : Nat)
    (history : List Call) (hs : supportedCopy ctx_from ctx_to)
    (hdev : cudaCallPasses (env.reply history
      (Call.hipSetDevice (copyDevice ctx_from ctx_to))).status = false) :
    (CopyDataFromTo env from_ from_offset to_ to_offset size ctx_from ctx_to stream).run history =
      ⟨Outcome.fatal (Fatal.cuda (env.reply history
        (Call.hipSetDevice (copyDevice ctx_from ctx_to))).status),
        history ++ [Call.hipSetDevice (copyDevice ctx_from ctx_to)]⟩ := by
  unfold CopyDataFromTo
  unfold supportedCopy at hs
  unfold copyDevice at hdev ⊢
  rcases hs with ⟨h1, h2⟩ | ⟨h1, h2⟩ | ⟨h1, h2⟩
  · simp only [h1, h2, and_self, if_true] at hdev ⊢
    rw [run_bind_CUDA_CALL]
    simp [hdev]
  · simp only [h1, h2, if_true] at hdev ⊢
    simp only [reduceCtorEq, and_false, and_self, if_false, if_true]
    rw [run_bind_CUDA_CALL]
    simp [hdev]
  · simp only [h1, h2] at hdev ⊢
    simp only [reduceCtorEq, false_and, and_false, and_self, if_false, if_true] at hdev ⊢
    rw [run_bind_CUDA_CALL]
    simp [hdev]

/-- An operation that hands the facade back unchanged when it returns. -/
theorem outcome_bind_pure_state {α : Type} (m : M α) (g : α → Value) (self : CUDADeviceAPI)
    (h : List Call) (v : Value) (s : CUDADeviceAPI)
    (hr : ((m >>= fun a => (pure (g a, self) : M (Value × CUDADeviceAPI))).run h).outcome
      = Outcome.ok (v, s)) : s = self := by
  rw [M.run_bind] at hr
  rcases hm : m.run h with ⟨o, t⟩
  rw [hm] at hr
  cases o with
  | ok a =>
    simp only [M.run_pure, Outcome.ok.injEq, Prod.mk.injEq] at hr
    exact hr.2.symm
  | fatal e => simp at hr
  | undefined => simp at hr

/-- `IsPinned` on a facade whose flag is false: false, and no call. -/
theorem run_IsPinned_unavailable (self : CUDADeviceAPI) (env : Env) (ptr : Nat)
    (h : List Call) (hf : self.is_available_ = false) :
    (self.IsPinned env ptr).run h = ⟨Outcome.ok (false, self), h⟩ := by
  unfold CUDADeviceAPI.IsPinned
  simp [hf]

/-- `IsPinned` on a facade whose flag is true: the query is made and the
status decides. -/
theorem run_IsPinned_available (self : CUDADeviceAPI) (env : Env) (ptr : Nat)
    (h : List Call) (ht : self.is_available_ = true) :
    (self.IsPinned env ptr).run h =
      match (env.reply h (Call.hipPointerGetAttributes ptr)).status with
      | hipError_t.hipErrorInvalidValue =>
        ⟨Outcome.ok (false, self), h ++ [Call.hipPointerGetAttributes ptr, Call.hipGetLastError]⟩
      | hipError_t.hipSuccess =>
        ⟨Outcome.ok (decide ((env.reply h (Call.hipPointerGetAttributes ptr)).type
          = hipMemoryType.hipMemoryTypeHost), self), h ++ [Call.hipPointerGetAttributes ptr]⟩
      | hipError_t.hipErrorNotInitialized
      | hipError_t.hipErrorNoDevice
      | hipError_t.hipErrorInsufficientDriver
      | hipError_t.hipErrorInvalidDevice =>
        ⟨Outcome.ok (false, ⟨false⟩),
          h ++ [Call.hipPointerGetAttributes ptr, Call.hipGetLastError]⟩
      | e => ⟨Outcome.fatal (Fatal.memoryStatus e), h ++ [Call.hipPointerGetAttributes ptr]⟩ := by
  unfold CUDADeviceAPI.IsPinned
  simp only [ht, Bool.not_true, Bool.false_eq_true, if_false, M.run_bind_call]
  cases (env.reply h (Call.hipPointerGetAttributes ptr)).status <;> simp

/-- No operation turns the flag from false to true. -/
theorem invoke_keeps_unavailable (self : CUDADeviceAPI) (env : Env) (op : Op)
    (h : List Call) (v : Value) (s : CUDADeviceAPI) (hf : self.is_available_ = false)
    (hr : ((self.invoke env op).run h).outcome = Outcome.ok (v, s)) :
    s.is_available_ = false := by
  cases op <;> simp only [CUDADeviceAPI.invoke] at hr
  case IsPinned ptr =>
    rw [M.run_bind, run_IsPinned_unavailable self env ptr h hf] at hr
    simp only [M.run_pure, Outcome.ok.injEq, Prod.mk.injEq] at hr
    rw [← hr.2]
    exact hf
  all_goals
    rw [outcome_bind_pure_state _ _ self h v s hr]
    exact hf

/-- No sequence of operations turns the flag from false to true. -/
theorem invokeAll_keeps_unavailable (later : List (Env × Op)) :
    ∀ (self : CUDADeviceAPI) (h : List Call) (s : CUDADeviceAPI),
      self.is_available_ = false →
      ((self.invokeAll later).run h).outcome = Outcome.ok s → s.is_available_ = false := by
  induction later with
  | nil =>
    intro self h s hf hr
    simp only [CUDADeviceAPI.invokeAll, M.run_pure, Outcome.ok.injEq] at hr
    rw [← hr]
    exact hf
  | cons step rest ih =>
    intro self h s hf hr
    obtain ⟨env, op⟩ := step
    simp only [CUDADeviceAPI.invokeAll] at hr
    rw [M.run_bind] at hr
    rcases hm : (self.invoke env op).run h with ⟨o, t⟩
    rw [hm] at hr
    cases o with
    | ok a =>
      obtain ⟨v, s1⟩ := a
      have h1 : s1.is_available_ = false :=
        invoke_keeps_unavailable self env op h v s1 hf (by rw [hm])
      exact ih s1 t s h1 hr
    | fatal e => simp at hr
    | undefined => simp at hr

/-- `SetDevice` followed by more. -/
theorem run_bind_SetDevice {β : Type} (env : Env) (ctx : DGLContext) (f : Unit → M β)
    (h : List Call) :
    (SetDevice env ctx >>= f).run h =
      if cudaCallPasses (env.reply h (Call.hipSetDevice ctx.device_id)).status then
        (f ()).run (h ++ [Call.hipSetDevice ctx.device_id])
      else ⟨Outcome.fatal (Fatal.cuda (env.reply h (Call.hipSetDevice ctx.device_id)).status),
        h ++ [Call.hipSetDevice ctx.device_id]⟩ := by
  unfold SetDevice
  rw [M.run_bind, run_bind_CUDA_CALL]
  by_cases hp : cudaCallPasses (env.reply h (Call.hipSetDevice ctx.device_id)).status = true <;>
    simp [hp]

/-- `AllocDataSpace`, in full. -/
theorem run_AllocDataSpace (env : Env) (ctx : DGLContext) (nbytes alignment : Nat)
    (h : List Call) :
    (AllocDataSpace env ctx nbytes alignment).run h =
      if cudaCallPasses (env.reply h (Call.hipSetDevice ctx.device_id)).status then
        if env.tensorDispatcherAvailable then
          ⟨Outcome.ok (env.reply
              (h ++ [Call.hipSetDevice ctx.device_id, Call.TensorDispatcher_IsAvailable,
                Call.TensorDispatcher_IsAvailable, Call.CUDAGetCurrentStream])
              (Call.CUDAAllocWorkspace nbytes (env.reply
                (h ++ [Call.hipSetDevice ctx.device_id, Call.TensorDispatcher_IsAvailable,
                  Call.TensorDispatcher_IsAvailable]) Call.CUDAGetCurrentStream).ptr)).ptr,
            h ++ [Call.hipSetDevice ctx.device_id, Call.TensorDispatcher_IsAvailable,
              Call.TensorDispatcher_IsAvailable, Call.CUDAGetCurrentStream,
              Call.CUDAAllocWorkspace nbytes (env.reply
                (h ++ [Call.hipSetDevice ctx.device_id, Call.TensorDispatcher_IsAvailable,
                  Call.TensorDispatcher_IsAvailable]) Call.CUDAGetCurrentStream).ptr]⟩
        else if alignment = 0 then
          ⟨Outcome.undefined,
            h ++ [Call.hipSetDevice ctx.device_id, Call.TensorDispatcher_IsAvailable]⟩
        else if 256 % alignment ≠ 0 then
          ⟨Outcome.fatal (Fatal.log "CUDA space is aligned at 256 bytes"),
            h ++ [Call.hipSetDevice ctx.device_id, Call.TensorDispatcher_IsAvailable]⟩
        else
          ⟨if cudaCallPasses (env.reply
              (h ++ [Call.hipSetDevice ctx.device_id, Call.TensorDispatcher_IsAvailable])
              (Call.hipMalloc nbytes)).status
            then Outcome.ok (env.reply
              (h ++ [Call.hipSetDevice ctx.device_id, Call.TensorDispatcher_IsAvailable])
              (Call.hipMalloc nbytes)).ptr
            else Outcome.fatal (Fatal.cuda (env.reply
              (h ++ [Call.hipSetDevice ctx.device_id, Call.TensorDispatcher_IsAvailable])
              (Call.hipMalloc nbytes)).status),
            h ++ [Call.hipSetDevice ctx.device_id, Call.TensorDispatcher_IsAvailable,
              Call.hipMalloc nbytes]⟩
      else ⟨Outcome.fatal (Fatal.cuda (env.reply h (Call.hipSetDevice ctx.device_id)).status),
        h ++ [Call.hipSetDevice ctx.device_id]⟩ := by
  unfold AllocDataSpace
  rw [run_bind_SetDevice]
  split
  · rw [run_bind_TensorDispatcher_IsAvailable]
    cases hav : env.tensorDispatcherAvailable
    · simp only [Bool.false_eq_true, if_false]
      by_cases ha : alignment = 0
      · simp [ha]
      · by_cases hm : 256 % alignment = 0
        · simp only [ha, hm, if_false, ne_eq, not_true_eq_false]
          rw [run_bind_CUDA_CALL]
          by_cases hp : cudaCallPasses (env.reply
              (h ++ [Call.hipSetDevice ctx.device_id, Call.TensorDispatcher_IsAvailable])
              (Call.hipMalloc nbytes)).status = true <;> simp [hp]
        · simp [ha, hm]
    · simp only [if_true]
      rw [run_bind_getCurrentCUDAStream]
      simp [hav]
  · rfl

/-- `FreeDataSpace`, in full. -/
theorem run_FreeDataSpace (env : Env) (ctx : DGLContext) (ptr : Nat) (h : List Call) :
    (FreeDataSpace env ctx ptr).run h =
      if cudaCallPasses (env.reply h (Call.hipSetDevice ctx.device_id)).status then
        if env.tensorDispatcherAvailable then
          ⟨Outcome.ok (),
            h ++ [Call.hipSetDevice ctx.device_id, Call.TensorDispatcher_IsAvailable,
              Call.CUDAFreeWorkspace ptr]⟩
        else
          ⟨if cudaCallPasses (env.reply
              (h ++ [Call.hipSetDevice ctx.device_id, Call.TensorDispatcher_IsAvailable])
              (Call.hipFree ptr)).status
            then Outcome.ok ()
            else Outcome.fatal (Fatal.cuda (env.reply
              (h ++ [Call.hipSetDevice ctx.device_id, Call.TensorDispatcher_IsAvailable])
              (Call.hipFree ptr)).status),
            h ++ [Call.hipSetDevice ctx.device_id, Call.TensorDispatcher_IsAvailable,
              Call.hipFree ptr]⟩
      else ⟨Outcome.fatal (Fatal.cuda (env.reply h (Call.hipSetDevice ctx.device_id)).status),
        h ++ [Call.hipSetDevice ctx.device_id]⟩ := by
  unfold FreeDataSpace
  rw [run_bind_SetDevice]
  split
  · rw [run_bind_TensorDispatcher_IsAvailable]
    cases hav : env.tensorDispatcherAvailable
    · simp only [Bool.false_eq_true, if_false]
      rw [run_bind_CUDA_CALL]
      by_cases hp : cudaCallPasses (env.reply
          (h ++ [Call.hipSetDevice ctx.device_id, Call.TensorDispatcher_IsAvailable])
          (Call.hipFree ptr)).status = true <;> simp [hp]
    · simp
  · rfl

/-- `AllocWorkspace`, in full. -/
theorem run_AllocWorkspace (env : Env) (ctx : DGLContext) (size : Nat) (h : List Call) :
    (AllocWorkspace env ctx size).run h =
      if cudaCallPasses (env.reply h (Call.hipSetDevice ctx.device_id)).status then
        if env.tensorDispatcherAvailable then
          ⟨Outcome.ok (env.reply
              (h ++ [Call.hipSetDevice ctx.device_id, Call.TensorDispatcher_IsAvailable,
                Call.TensorDispatcher_IsAvailable, Call.CUDAGetCurrentStream])
              (Call.CUDAAllocWorkspace size (env.reply
                (h ++ [Call.hipSetDevice ctx.device_id, Call.TensorDispatcher_IsAvailable,
                  Call.TensorDispatcher_IsAvailable]) Call.CUDAGetCurrentStream).ptr)).ptr,
            h ++ [Call.hipSetDevice ctx.device_id, Call.TensorDispatcher_IsAvailable,
              Call.TensorDispatcher_IsAvailable, Call.CUDAGetCurrentStream,
              Call.CUDAAllocWorkspace size (env.reply
                (h ++ [Call.hipSetDevice ctx.device_id, Call.TensorDispatcher_IsAvailable,
                  Call.TensorDispatcher_IsAvailable]) Call.CUDAGetCurrentStream).ptr]⟩
        else
          ⟨Outcome.ok (env.reply
              (h ++ [Call.hipSetDevice ctx.device_id, Call.TensorDispatcher_IsAvailable])
              (Call.pool_AllocWorkspace ctx size)).ptr,
            h ++ [Call.hipSetDevice ctx.device_id, Call.TensorDispatcher_IsAvailable,
              Call.pool_AllocWorkspace ctx size]⟩
      else ⟨Outcome.fatal (Fatal.cuda (env.reply h (Call.hipSetDevice ctx.device_id)).status),
        h ++ [Call.hipSetDevice ctx.device_id]⟩ := by
  unfold AllocWorkspace
  rw [run_bind_SetDevice]
  split
  · rw [run_bind_TensorDispatcher_IsAvailable]
    cases hav : env.tensorDispatcherAvailable
    · simp
    · simp only [if_true]
      rw [run_bind_getCurrentCUDAStream]
      simp [hav]
  · rfl

/-- `FreeWorkspace`, in full. -/
theorem run_FreeWorkspace (env : Env) (ctx : DGLContext) (data : Nat) (h : List Call) :
    (FreeWorkspace env ctx data).run h =
      if cudaCallPasses (env.reply h (Call.hipSetDevice ctx.device_id)).status then
        if env.tensorDispatcherAvailable then
          ⟨Outcome.ok (),
            h ++ [Call.hipSetDevice ctx.device_id, Call.TensorDispatcher_IsAvailable,
              Call.CUDAFreeWorkspace data]⟩
        else
          ⟨Outcome.ok (),
            h ++ [Call.hipSetDevice ctx.device_id, Call.TensorDispatcher_IsAvailable,
              Call.pool_FreeWorkspace ctx data]⟩
      else ⟨Outcome.fatal (Fatal.cuda (env.reply h (Call.hipSetDevice ctx.device_id)).status),
        h ++ [Call.hipSetDevice ctx.device_id]⟩ := by
  unfold FreeWorkspace
  rw [run_bind_SetDevice]
  split
  · rw [run_bind_TensorDispatcher_IsAvailable]
    cases hav : env.tensorDispatcherAvailable <;> simp
  · rfl

/-- `PinData` on a non-null pointer and a non-zero size, in full. -/
theorem run_PinData (env : Env) (ptr nbytes : Nat) (h : List Call) (hp : ptr ≠ 0)
    (hn : nbytes ≠ 0) :
    (PinData env ptr nbytes).run h =
      ⟨if cudaCallPasses (env.reply
          (h ++ Call.TensorDispatcher_IsAvailable ::
            (if env.tensorDispatcherAvailable then [Call.CUDAHostAllocatorEmptyCache] else []))
          (Call.hipHostRegister ptr nbytes)).status
        then Outcome.ok true
        else Outcome.fatal (Fatal.cuda (env.reply
          (h ++ Call.TensorDispatcher_IsAvailable ::
            (if env.tensorDispatcherAvailable then [Call.CUDAHostAllocatorEmptyCache] else []))
          (Call.hipHostRegister ptr nbytes)).status),
        h ++ Call.TensorDispatcher_IsAvailable ::
          (if env.tensorDispatcherAvailable then [Call.CUDAHostAllocatorEmptyCache] else []) ++
          [Call.hipHostRegister ptr nbytes]⟩ := by
  unfold PinData
  simp only [hp, hn, or_self, if_false]
  rw [run_bind_TensorDispatcher_IsAvailable]
  cases hav : env.tensorDispatcherAvailable
  · simp only [Bool.false_eq_true, if_false, M.run_bind_pure]
    rw [run_bind_CUDA_CALL]
    by_cases hc : cudaCallPasses (env.reply (h ++ [Call.TensorDispatcher_IsAvailable])
        (Call.hipHostRegister ptr nbytes)).status = true <;> simp [hc]
  · simp only [if_true, M.run_bind_call, M.run_bind_pure]
    rw [run_bind_CUDA_CALL]
    by_cases hc : cudaCallPasses (env.reply
        (h ++ [Call.TensorDispatcher_IsAvailable, Call.CUDAHostAllocatorEmptyCache])
        (Call.hipHostRegister ptr nbytes)).status = true <;> simp [hc]

/-- Returning makes no call. -/
theorem emits_pure (Q : Call → Prop) {α : Type} (a : α) : Emits Q (pure a : M α) := by
  intro h
  exact ⟨[], by simp, by simp⟩

/-- A fatal error makes no call. -/
theorem emits_LOG_FATAL (Q : Call → Prop) {α : Type} (e : Fatal) :
    Emits Q (LOG_FATAL e : M α) := by
  intro h
  exact ⟨[], by simp, by simp⟩

/-- Undefined behaviour makes no call. -/
theorem emits_undefinedBehaviour (Q : Call → Prop) {α : Type} :
    Emits Q (undefinedBehaviour : M α) := by
  intro h
  exact ⟨[], by simp, by simp⟩

/-- An unchecked call makes that call. -/
theorem emits_call (Q : Call → Prop) (env : Env) (c : Call) (hc : Q c) :
    Emits Q (call env c) := by
  intro h
  exact ⟨[c], by simp, by simpa using hc⟩

/-- A checked call makes that call. -/
theorem emits_CUDA_CALL (Q : Call → Prop) (env : Env) (c : Call) (hc : Q c) :
    Emits Q (CUDA_CALL env c) := by
  intro h
  refine ⟨[c], ?_, by simpa using hc⟩
  rw [run_CUDA_CALL]

/-- The calls of a sequence are those of its parts. -/
theorem emits_bind (Q : Call → Prop) {α β : Type} (m : M α) (f : α → M β)
    (hm : Emits Q m) (hf : ∀ a, Emits Q (f a)) : Emits Q (m >>= f) := by
  intro h
  obtain ⟨new1, ht1, hq1⟩ := hm h
  rw [M.run_bind]
  rcases hr : m.run h with ⟨o, t⟩
  rw [hr] at ht1
  simp only at ht1
  subst ht1
  cases o with
  | ok a =>
    obtain ⟨new2, ht2, hq2⟩ := hf a (h ++ new1)
    refine ⟨new1 ++ new2, ?_, ?_⟩
    · simp only [ht2, List.append_assoc]
    · intro c hc
      rcases List.mem_append.mp hc with h1 | h2
      · exact hq1 c h1
      · exact hq2 c h2
  | fatal e => exact ⟨new1, rfl, hq1⟩
  | undefined => exact ⟨new1, rfl, hq1⟩

/-- The stream overload of `CopyDataFromTo` makes checked driver calls only. -/
theorem emits_CopyDataFromTo (Q : Call → Prop) (env : Env)
    (from_ from_offset to_ to_offset size : Nat) (ctx_from ctx_to : DGLContext) (stream : Nat)
    (hQ : ∀ c, isCheckedCall c = true → Q c) :
    Emits Q (CopyDataFromTo env from_ from_offset to_ to_offset size ctx_from ctx_to stream) := by
  unfold CopyDataFromTo GPUCopy
  repeat (first
    | exact emits_pure Q _
    | exact emits_LOG_FATAL Q _
    | exact emits_CUDA_CALL Q env _ (hQ _ rfl)
    | refine emits_bind Q _ _ ?_ (fun _ => ?_)
    | split
    | dsimp only)

/-- `GetStream`, in full. -/
theorem run_GetStream (env : Env) (h : List Call) :
    (GetStream env).run h =
      ⟨Outcome.ok (if env.tensorDispatcherAvailable then
          (env.reply (h ++ [Call.TensorDispatcher_IsAvailable]) Call.CUDAGetCurrentStream).ptr
          else 0),
        h ++ Call.TensorDispatcher_IsAvailable ::
          (if env.tensorDispatcherAvailable then [Call.CUDAGetCurrentStream] else [])⟩ := by
  unfold GetStream
  rw [run_getCurrentCUDAStream]
  cases env.tensorDispatcherAvailable <;> simp

/-- A list of one call splits around a call in one way only. -/
theorem singleton_eq_append_cons {c c1 : Call} {pre post : List Call}
    (h : [c] = pre ++ c1 :: post) : pre = [] ∧ c1 = c ∧ post = [] := by
  cases pre with
  | nil =>
    simp only [List.nil_append, List.cons.injEq] at h
    exact ⟨rfl, h.1.symm, h.2.symm⟩
  | cons x rest =>
    simp at h

/-- Returning makes no call, so no failing one. -/
theorem fof_pure (env : Env) {α : Type} (a : α) : FatalOnFailure env (pure a : M α) := by
  intro h
  refine ⟨[], by simp, ?_⟩
  intro pre c post hs
  simp at hs

/-- A fatal error makes no call, so no failing one. -/
theorem fof_LOG_FATAL (env : Env) {α : Type} (e : Fatal) :
    FatalOnFailure env (LOG_FATAL e : M α) := by
  intro h
  refine ⟨[], by simp, ?_⟩
  intro pre c post hs
  simp at hs

/-- Undefined behaviour makes no call, so no failing one. -/
theorem fof_undefinedBehaviour (env : Env) {α : Type} :
    FatalOnFailure env (undefinedBehaviour : M α) := by
  intro h
  refine ⟨[], by simp, ?_⟩
  intro pre c post hs
  simp at hs

/-- A call outside `CUDA_CALL` is not one of the checked calls. -/
theorem fof_call (env : Env) (c : Call) (hc : isCheckedCall c = false) :
    FatalOnFailure env (call env c) := by
  intro h
  refine ⟨[c], by simp, ?_⟩
  intro pre c1 post hs hchk _
  obtain ⟨_, h2, _⟩ := singleton_eq_append_cons hs
  rw [h2, hc] at hchk
  exact absurd hchk (by decide)

/-- The macro `CUDA_CALL` ends fatally when the status of its call fails. -/
theorem fof_CUDA_CALL (env : Env) (c : Call) : FatalOnFailure env (CUDA_CALL env c) := by
  intro h
  refine ⟨[c], by rw [run_CUDA_CALL], ?_⟩
  intro pre c1 post hs _ hfail
  obtain ⟨h1, h2, h3⟩ := singleton_eq_append_cons hs
  subst h1 h2 h3
  rw [List.append_nil] at hfail ⊢
  rw [run_CUDA_CALL]
  simp [hfail]

/-- A sequence ends fatally at the first failing checked call of its parts. -/
theorem fof_bind (env : Env) {α β : Type} (m : M α) (f : α → M β)
    (hm : FatalOnFailure env m) (hf : ∀ a, FatalOnFailure env (f a)) :
    FatalOnFailure env (m >>= f) := by
  intro h
  obtain ⟨new1, ht1, hp1⟩ := hm h
  rw [M.run_bind]
  rcases hr : m.run h with ⟨o, t⟩
  rw [hr] at ht1 hp1
  simp only at ht1 hp1
  subst ht1
  cases o with
  | ok a =>
    obtain ⟨new2, ht2, hp2⟩ := hf a (h ++ new1)
    refine ⟨new1 ++ new2, by simp only [ht2, List.append_assoc], ?_⟩
    intro pre c post hs hchk hfail
    have inner : ∀ a1, pre = new1 ++ a1 → new2 = a1 ++ c :: post →
        ((f a).run (h ++ new1)).outcome
          = Outcome.fatal (Fatal.cuda (env.reply (h ++ pre) c).status) ∧ post = [] := by
      intro a1 hpre hnew2
      subst hpre
      rw [← List.append_assoc] at hfail ⊢
      exact hp2 a1 c post hnew2 hchk hfail
    rcases List.append_eq_append_iff.mp hs with ⟨a1, hpre, hnew2⟩ | ⟨c1, hnew1, hrest⟩
    · exact inner a1 hpre hnew2
    · cases c1 with
      | nil =>
        simp only [List.nil_append] at hrest
        simp only [List.append_nil] at hnew1
        exact inner [] (by simp [hnew1]) (by simp [hrest])
      | cons x rest =>
        simp only [List.cons_append, List.cons.injEq] at hrest
        obtain ⟨hx, _⟩ := hrest
        subst hx
        have := (hp1 pre c rest hnew1 hchk hfail).1
        simp at this
  | fatal e =>
    refine ⟨new1, rfl, ?_⟩
    intro pre c post hs hchk hfail
    have := hp1 pre c post hs hchk hfail
    simp only [Outcome.fatal.injEq] at this
    exact ⟨by rw [this.1], this.2⟩
  | undefined =>
    refine ⟨new1, rfl, ?_⟩
    intro pre c post hs hchk hfail
    have := (hp1 pre c post hs hchk hfail).1
    simp at this

/-- Every operation of the facade ends fatally at a failing checked call. -/
theorem fof_invoke (self : CUDADeviceAPI) (env : Env) (op : Op) :
    FatalOnFailure env (self.invoke env op) := by
  cases op <;> simp only [CUDADeviceAPI.invoke] <;>
  repeat (first
    | with_reducible exact fof_pure env _
    | with_reducible exact fof_LOG_FATAL env _
    | with_reducible exact fof_undefinedBehaviour env
    | with_reducible exact fof_CUDA_CALL env _
    | exact fof_call env _ rfl
    | with_reducible refine fof_bind env _ _ ?_ (fun _ => ?_)
    | split
    | dsimp only
    | unfold CUDADeviceAPI.IsAvailable
    | unfold SetDevice
    | unfold GetAttr
    | unfold AllocDataSpace
    | unfold FreeDataSpace
    | unfold CopyDataFromTo_current
    | unfold RecordedCopyDataFromTo
    | unfold CopyDataFromTo
    | unfold GPUCopy
    | unfold CreateStream
    | unfold FreeStream
    | unfold SyncStreamFromTo
    | unfold StreamSync
    | unfold SetStream
    | unfold GetStream
    | unfold getCurrentCUDAStream
    | unfold TensorDispatcher_IsAvailable
    | unfold PinData
    | unfold UnpinData
    | unfold AllocPinnedDataSpace
    | unfold FreePinnedDataSpace
    | unfold CUDADeviceAPI.IsPinned
    | unfold AllocWorkspace
    | unfold FreeWorkspace)

/-- After the probe, what follows runs with the availability of the environment. -/
theorem emits_probe_bind (Q : Call → Prop) (env : Env) {β : Type} (f : Bool → M β)
    (hq : Q Call.TensorDispatcher_IsAvailable) (hf : Emits Q (f env.tensorDispatcherAvailable)) :
    Emits Q (TensorDispatcher_IsAvailable env >>= f) := by
  intro h
  obtain ⟨new, hnew, hall⟩ := hf (h ++ [Call.TensorDispatcher_IsAvailable])
  rw [run_bind_TensorDispatcher_IsAvailable]
  refine ⟨Call.TensorDispatcher_IsAvailable :: new, ?_, ?_⟩
  · rw [hnew]
    simp
  · intro c hc
    rcases List.mem_cons.mp hc with h1 | h1
    · rw [h1]
      exact hq
    · exact hall c h1

/-- Every operation of the facade keeps to the source that the availability of
its environment selects. -/
theorem emits_invoke (self : CUDADeviceAPI) (env : Env) (op : Op) :
    Emits (keepsToSource env.tensorDispatcherAvailable) (self.invoke env op) := by
  cases op <;> simp only [CUDADeviceAPI.invoke] <;>
  repeat (first
    | with_reducible exact emits_pure _ _
    | with_reducible exact emits_LOG_FATAL _ _
    | with_reducible exact emits_undefinedBehaviour _
    | with_reducible exact emits_CUDA_CALL _ env _ (by simp_all [keepsToSource, isDriverHeapCall, isExternalWorkspaceCall])
    | with_reducible exact emits_call _ env _ (by simp_all [keepsToSource, isDriverHeapCall, isExternalWorkspaceCall])
    | with_reducible refine emits_probe_bind _ env _ (by simp [keepsToSource, isDriverHeapCall, isExternalWorkspaceCall]) ?_
    | with_reducible refine emits_bind _ _ _ ?_ (fun _ => ?_)
    | split
    | dsimp only
    | unfold CUDADeviceAPI.IsAvailable
    | unfold SetDevice
    | unfold GetAttr
    | unfold AllocDataSpace
    | unfold FreeDataSpace
    | unfold CopyDataFromTo_current
    | unfold RecordedCopyDataFromTo
    | unfold CopyDataFromTo
    | unfold GPUCopy
    | unfold CreateStream
    | unfold FreeStream
    | unfold SyncStreamFromTo
    | unfold StreamSync
    | unfold SetStream
    | unfold GetStream
    | unfold getCurrentCUDAStream
    | unfold PinData
    | unfold UnpinData
    | unfold AllocPinnedDataSpace
    | unfold FreePinnedDataSpace
    | unfold CUDADeviceAPI.IsPinned
    | unfold AllocWorkspace
    | unfold FreeWorkspace)

/-- A sequence of operations keeps to one source while the availability is the
same at every step. -/
theorem emits_invokeAll (available : Bool) (steps : List (Env × Op)) :
    (∀ step ∈ steps, step.1.tensorDispatcherAvailable = available) →
    ∀ self : CUDADeviceAPI, Emits (keepsToSource available) (self.invokeAll steps) := by
  induction steps with
  | nil =>
    intro _ self
    simp only [CUDADeviceAPI.invokeAll]
    exact emits_pure _ _
  | cons step rest ih =>
    intro hall self
    obtain ⟨env, op⟩ := step
    simp only [CUDADeviceAPI.invokeAll]
    have henv : env.tensorDispatcherAvailable = available :=
      hall (env, op) (List.mem_cons_self _ _)
    refine emits_bind _ _ _ ?_ (fun a => ?_)
    · rw [← henv]
      exact emits_invoke self env op
    · exact ih (fun s hs => hall s (List.mem_cons_of_mem _ hs)) a.2

/-! ## The claims -/

/-- C1: for every pair of contexts that is not one of the three supported
directions (so host to host, and every pair with an unrecognized device kind),
and for every pointer, offset, size and stream, `CopyDataFromTo` ends with the
fatal error "expect copy from/to GPU or between GPU" and makes no call at all
before it: the calls made are exactly those made before.  The overload without
a stream ends with the same fatal error after asking only the
`TensorDispatcher` for the current stream: it makes no driver call either. -/
theorem C1_unsupported_copy_is_fatal_without_driver_call (env : Env)
    (from_ from_offset to_ to_offset size : Nat) (ctx_from ctx_to : DGLContext) (stream : Nat)
    (history : List Call) (h : ¬ supportedCopy ctx_from ctx_to) :
    (CopyDataFromTo env from_ from_offset to_ to_offset size ctx_from ctx_to stream).run history
        = ⟨Outcome.fatal (Fatal.log "expect copy from/to GPU or between GPU"), history⟩ ∧
      (CopyDataFromTo_current env from_ from_offset to_ to_offset size ctx_from ctx_to).run
          history
        = ⟨Outcome.fatal (Fatal.log "expect copy from/to GPU or between GPU"),
            history ++ Call.TensorDispatcher_IsAvailable ::
              (if env.tensorDispatcherAvailable then [Call.CUDAGetCurrentStream] else [])⟩ := by
  unfold supportedCopy at h
  simp only [not_or] at h
  obtain ⟨h1, h2, h3⟩ := h
  have key : ∀ (s : Nat) (t : List Call),
      (CopyDataFromTo env from_ from_offset to_ to_offset size ctx_from ctx_to s).run t
        = ⟨Outcome.fatal (Fatal.log "expect copy from/to GPU or between GPU"), t⟩ := by
    intro s t
    unfold CopyDataFromTo
    simp only [if_neg h1, if_neg h2, if_neg h3, M.run_LOG_FATAL]
  refine ⟨key stream history, ?_⟩
  unfold CopyDataFromTo_current GetStream
  rw [run_bind_getCurrentCUDAStream]
  cases env.tensorDispatcherAvailable <;> simp [key]

/-- C1, at a host-to-host copy. -/
theorem C1_unsupported_copy_witness :
    ¬ supportedCopy cpu cpu ∧
    ((CopyDataFromTo (envAll hipError_t.hipSuccess true) 100 0 200 0 8 cpu cpu 7).run []
        = ⟨Outcome.fatal (Fatal.log "expect copy from/to GPU or between GPU"), []⟩ ∧
      (CopyDataFromTo_current (envAll hipError_t.hipSuccess true) 100 0 200 0 8 cpu cpu).run []
        = ⟨Outcome.fatal (Fatal.log "expect copy from/to GPU or between GPU"),
            [] ++ Call.TensorDispatcher_IsAvailable ::
              (if (envAll hipError_t.hipSuccess true).tensorDispatcherAvailable
                then [Call.CUDAGetCurrentStream] else [])⟩) :=
  ⟨by decide, C1_unsupported_copy_is_fatal_without_driver_call
    (envAll hipError_t.hipSuccess true) 100 0 200 0 8 cpu cpu 7 [] (by decide)⟩

/-- C2: for every supported copy that `CopyDataFromTo` performs (the set-device
call and the asynchronous copy pass their checks), the calls made are the
set-device call, the asynchronous copy and, exactly when the stream is the null
stream and the direction is device to host, one `hipStreamSynchronize` of that
stream right after the copy.  So a synchronization is issued if and only if the
stream is null and the direction is device to host; in every other case (host
to device, device to device on one device, peer copy, a non-null stream) the
call returns right after the copy was enqueued. -/
theorem C2_synchronize_iff_null_stream_and_device_to_host (env : Env)
    (from_ from_offset to_ to_offset size : Nat) (ctx_from ctx_to : DGLContext) (stream : Nat)
    (history : List Call) (hs : supportedCopy ctx_from ctx_to)
    (hdev : cudaCallPasses (env.reply history
      (Call.hipSetDevice (copyDevice ctx_from ctx_to))).status = true)
    (hcopy : cudaCallPasses (env.reply
      (history ++ [Call.hipSetDevice (copyDevice ctx_from ctx_to)])
      (specCopyCall from_ from_offset to_ to_offset size ctx_from ctx_to stream)).status = true) :
    ((CopyDataFromTo env from_ from_offset to_ to_offset size ctx_from ctx_to stream).run
        history).trace
      = history ++ [Call.hipSetDevice (copyDevice ctx_from ctx_to),
          specCopyCall from_ from_offset to_ to_offset size ctx_from ctx_to stream] ++
        (if stream = 0 ∧ deviceToHost ctx_from ctx_to then [Call.hipStreamSynchronize stream]
          else []) ∧
    ((∃ s, Call.hipStreamSynchronize s ∈
        (((CopyDataFromTo env from_ from_offset to_ to_offset size ctx_from ctx_to stream).run
          history).trace).drop history.length)
      ↔ (stream = 0 ∧ deviceToHost ctx_from ctx_to)) ∧
    (¬ (stream = 0 ∧ deviceToHost ctx_from ctx_to) →
      (CopyDataFromTo env from_ from_offset to_ to_offset size ctx_from ctx_to stream).run history
        = ⟨Outcome.ok (), history ++ [Call.hipSetDevice (copyDevice ctx_from ctx_to),
          specCopyCall from_ from_offset to_ to_offset size ctx_from ctx_to stream]⟩) := by
  have hrun := run_CopyDataFromTo_supported env from_ from_offset to_ to_offset size
    ctx_from ctx_to stream history hs hdev
  obtain ⟨tf, idf⟩ := ctx_from
  obtain ⟨tt, idt⟩ := ctx_to
  have hdrop : ∀ l : List Call, (history ++ l).drop history.length = l := by
    intro l
    simp
  unfold supportedCopy at hs
  simp only at hs
  rcases hs with ⟨h1, h2⟩ | ⟨h1, h2⟩ | ⟨h1, h2⟩
  · subst h1 h2
    by_cases hid : idf = idt
    · subst hid
      simp only [copyDevice, specCopyCall, and_self, if_true] at hcopy hrun ⊢
      rw [run_GPUCopy, if_pos hcopy] at hrun
      simp only [reduceCtorEq, and_false, if_false, List.append_assoc, List.cons_append,
        List.nil_append] at hrun
      rw [hrun]
      simp [deviceToHost, hdrop]
    · simp only [copyDevice, specCopyCall, and_self, if_true, hid, if_false] at hcopy hrun ⊢
      rw [if_pos hcopy] at hrun
      rw [hrun]
      simp [deviceToHost, hdrop]
  · subst h1 h2
    simp only [copyDevice, specCopyCall, reduceCtorEq, and_false, if_true, if_false]
      at hcopy hrun ⊢
    rw [run_GPUCopy, if_pos hcopy] at hrun
    rw [hrun]
    by_cases hst : stream = 0
    · subst hst
      simp [deviceToHost, hdrop]
    · simp [deviceToHost, hdrop, hst]
  · subst h1 h2
    simp only [copyDevice, specCopyCall, reduceCtorEq, and_false, false_and, if_false]
      at hcopy hrun ⊢
    rw [run_GPUCopy, if_pos hcopy] at hrun
    simp only [reduceCtorEq, and_false, if_false, List.append_assoc, List.cons_append,
      List.nil_append] at hrun
    rw [hrun]
    simp [deviceToHost, hdrop]

/-- C2, at a device-to-host copy on the null stream. -/
theorem C2_synchronize_witness :
    supportedCopy (gpu 0) cpu ∧
    cudaCallPasses ((envAll hipError_t.hipSuccess false).reply []
      (Call.hipSetDevice (copyDevice (gpu 0) cpu))).status = true ∧
    cudaCallPasses ((envAll hipError_t.hipSuccess false).reply
      ([] ++ [Call.hipSetDevice (copyDevice (gpu 0) cpu)])
      (specCopyCall 100 0 200 0 8 (gpu 0) cpu 0)).status = true ∧
    (((CopyDataFromTo (envAll hipError_t.hipSuccess false) 100 0 200 0 8 (gpu 0) cpu 0).run
        []).trace
      = [] ++ [Call.hipSetDevice (copyDevice (gpu 0) cpu),
          specCopyCall 100 0 200 0 8 (gpu 0) cpu 0] ++
        (if 0 = 0 ∧ deviceToHost (gpu 0) cpu then [Call.hipStreamSynchronize 0] else []) ∧
    ((∃ s, Call.hipStreamSynchronize s ∈
        (((CopyDataFromTo (envAll hipError_t.hipSuccess false) 100 0 200 0 8 (gpu 0) cpu 0).run
          []).trace).drop ([] : List Call).length)
      ↔ (0 = 0 ∧ deviceToHost (gpu 0) cpu)) ∧
    (¬ (0 = 0 ∧ deviceToHost (gpu 0) cpu) →
      (CopyDataFromTo (envAll hipError_t.hipSuccess false) 100 0 200 0 8 (gpu 0) cpu 0).run []
        = ⟨Outcome.ok (), [] ++ [Call.hipSetDevice (copyDevice (gpu 0) cpu),
          specCopyCall 100 0 200 0 8 (gpu 0) cpu 0]⟩)) :=
  ⟨by decide, rfl, rfl, C2_synchronize_iff_null_stream_and_device_to_host
    (envAll hipError_t.hipSuccess false) 100 0 200 0 8 (gpu 0) cpu 0 [] (by decide) rfl rfl⟩

/-- C3, as stated, fails when the set-device call fails: a device-to-device
copy on device 99, which the driver does not know, ends with the fatal error of
the set-device check, and no copy of any kind was issued. -/
theorem C3_counterexample_no_copy_after_failed_set_device :
    (CopyDataFromTo (envAll hipError_t.hipErrorInvalidDevice false) 100 0 200 0 8
        (gpu 99) (gpu 99) 7).run []
      = ⟨Outcome.fatal (Fatal.cuda hipError_t.hipErrorInvalidDevice), [Call.hipSetDevice 99]⟩ ∧
    Call.hipMemcpyAsync 200 100 8 hipMemcpyKind.hipMemcpyDeviceToDevice 7 ∉
      ((CopyDataFromTo (envAll hipError_t.hipErrorInvalidDevice false) 100 0 200 0 8
        (gpu 99) (gpu 99) 7).run []).trace := by
  decide

/-- C3, amended: on every supported direction `CopyDataFromTo` first issues the
set-device call, for the source device, or for the destination device when the
source is the host.  When that call fails its check the process ends there, and
no copy is issued.  When it passes, exactly one asynchronous copy follows, of
`size` bytes from `from + from_offset` to `to + to_offset` on the given stream:
a device-to-device memcpy for one device, a peer copy addressed by (destination
id, source id) for two devices, a device-to-host memcpy (after which at most
the synchronization of the stream follows), or a host-to-device memcpy. -/
theorem C3_routes_by_kind_after_selecting_the_device (env : Env)
    (from_ from_offset to_ to_offset size : Nat) (ctx_from ctx_to : DGLContext) (stream : Nat)
    (history : List Call) (hs : supportedCopy ctx_from ctx_to) :
    (cudaCallPasses (env.reply history
        (Call.hipSetDevice (copyDevice ctx_from ctx_to))).status = false →
      (CopyDataFromTo env from_ from_offset to_ to_offset size ctx_from ctx_to stream).run history
        = ⟨Outcome.fatal (Fatal.cuda (env.reply history
            (Call.hipSetDevice (copyDevice ctx_from ctx_to))).status),
          history ++ [Call.hipSetDevice (copyDevice ctx_from ctx_to)]⟩) ∧
    (cudaCallPasses (env.reply history
        (Call.hipSetDevice (copyDevice ctx_from ctx_to))).status = true →
      (ctx_from.device_type = DGLDeviceType.kDGLCUDA ∧
          ctx_to.device_type = DGLDeviceType.kDGLCUDA ∧
          ctx_from.device_id = ctx_to.device_id →
        ((CopyDataFromTo env from_ from_offset to_ to_offset size ctx_from ctx_to stream).run
            history).trace
          = history ++ [Call.hipSetDevice ctx_from.device_id,
              Call.hipMemcpyAsync (ptrAdd to_ to_offset) (ptrAdd from_ from_offset) size
                hipMemcpyKind.hipMemcpyDeviceToDevice stream]) ∧
      (ctx_from.device_type = DGLDeviceType.kDGLCUDA ∧
          ctx_to.device_type = DGLDeviceType.kDGLCUDA ∧
          ctx_from.device_id ≠ ctx_to.device_id →
        ((CopyDataFromTo env from_ from_offset to_ to_offset size ctx_from ctx_to stream).run
            history).trace
          = history ++ [Call.hipSetDevice ctx_from.device_id,
              Call.hipMemcpyPeerAsync (ptrAdd to_ to_offset) ctx_to.device_id
                (ptrAdd from_ from_offset) ctx_from.device_id size stream]) ∧
      (ctx_from.device_type = DGLDeviceType.kDGLCUDA ∧
          ctx_to.device_type = DGLDeviceType.kDGLCPU →
        ∃ tail, (tail = [] ∨ tail = [Call.hipStreamSynchronize stream]) ∧
          ((CopyDataFromTo env from_ from_offset to_ to_offset size ctx_from ctx_to stream).run
              history).trace
            = history ++ [Call.hipSetDevice ctx_from.device_id,
                Call.hipMemcpyAsync (ptrAdd to_ to_offset) (ptrAdd from_ from_offset) size
                  hipMemcpyKind.hipMemcpyDeviceToHost stream] ++ tail) ∧
      (ctx_from.device_type = DGLDeviceType.kDGLCPU ∧
          ctx_to.device_type = DGLDeviceType.kDGLCUDA →
        ((CopyDataFromTo env from_ from_offset to_ to_offset size ctx_from ctx_to stream).run
            history).trace
          = history ++ [Call.hipSetDevice ctx_to.device_id,
              Call.hipMemcpyAsync (ptrAdd to_ to_offset) (ptrAdd from_ from_offset) size
                hipMemcpyKind.hipMemcpyHostToDevice stream])) := by
  refine ⟨fun hdev => run_CopyDataFromTo_device_fails env from_ from_offset to_ to_offset size
    ctx_from ctx_to stream history hs hdev, fun hdev => ?_⟩
  have hrun := run_CopyDataFromTo_supported env from_ from_offset to_ to_offset size
    ctx_from ctx_to stream history hs hdev
  obtain ⟨tf, idf⟩ := ctx_from
  obtain ⟨tt, idt⟩ := ctx_to
  simp only at hrun ⊢
  refine ⟨?_, ?_, ?_, ?_⟩
  · rintro ⟨h1, h2, h3⟩
    subst h1 h2 h3
    simp only [and_self, if_true] at hrun
    rw [hrun, run_GPUCopy]
    split <;> simp
  · rintro ⟨h1, h2, h3⟩
    subst h1 h2
    simp only [and_self, if_true, if_neg h3] at hrun
    rw [hrun]
  · rintro ⟨h1, h2⟩
    subst h1 h2
    simp only [reduceCtorEq, and_false, if_true, if_false] at hrun
    rw [hrun, run_GPUCopy]
    split
    · split
      · exact ⟨[Call.hipStreamSynchronize stream], Or.inr rfl, by simp⟩
      · exact ⟨[], Or.inl rfl, by simp⟩
    · exact ⟨[], Or.inl rfl, by simp⟩
  · rintro ⟨h1, h2⟩
    subst h1 h2
    simp only [reduceCtorEq, and_false, false_and, if_false] at hrun
    rw [hrun, run_GPUCopy]
    split <;> simp

/-- C3 amended, at a peer copy from device 0 to device 1 on stream 7. -/
theorem C3_routes_witness :
    supportedCopy (gpu 0) (gpu 1) ∧
    ((CopyDataFromTo (envAll hipError_t.hipSuccess false) 100 4 200 8 16 (gpu 0) (gpu 1) 7).run
        []).trace
      = [] ++ [Call.hipSetDevice (gpu 0).device_id,
          Call.hipMemcpyPeerAsync (ptrAdd 200 8) (gpu 1).device_id (ptrAdd 100 4)
            (gpu 0).device_id 16 7] :=
  ⟨by decide, ((C3_routes_by_kind_after_selecting_the_device
    (envAll hipError_t.hipSuccess false) 100 4 200 8 16 (gpu 0) (gpu 1) 7 [] (by decide)).2
      rfl).2.1 ⟨rfl, rfl, by decide⟩⟩

/-- C4: when the pointer-attribute query of `IsPinned` answers not-initialized,
no-device, insufficient-driver or invalid-device, `IsPinned` returns false
without a fatal error and leaves the facade with its availability flag false.
From then on, after every sequence of further operations (each in any
environment, started after any calls), the flag is still false: `IsAvailable`
returns false, and `IsPinned` returns false for every pointer and leaves the
calls made as they were, so it does not query the driver again.  No operation
turns the flag from false to true. -/
theorem C4_context_invalidation_is_permanent (self : CUDADeviceAPI) (env : Env) (ptr : Nat)
    (history : List Call) (havailable : self.is_available_ = true)
    (hstatus : (env.reply history (Call.hipPointerGetAttributes ptr)).status ∈
      [hipError_t.hipErrorNotInitialized, hipError_t.hipErrorNoDevice,
        hipError_t.hipErrorInsufficientDriver, hipError_t.hipErrorInvalidDevice]) :
    ∃ self1 : CUDADeviceAPI,
      (self.IsPinned env ptr).run history
        = ⟨Outcome.ok (false, self1),
            history ++ [Call.hipPointerGetAttributes ptr, Call.hipGetLastError]⟩ ∧
      self1.is_available_ = false ∧
      (∀ (later : List (Env × Op)) (start : List Call) (self2 : CUDADeviceAPI),
        ((self1.invokeAll later).run start).outcome = Outcome.ok self2 →
          self2.is_available_ = false ∧
          (∀ t : List Call, self2.IsAvailable.run t = ⟨Outcome.ok false, t⟩) ∧
          (∀ (env2 : Env) (ptr2 : Nat) (t : List Call),
            (self2.IsPinned env2 ptr2).run t = ⟨Outcome.ok (false, self2), t⟩)) ∧
      (∀ (s : CUDADeviceAPI) (env2 : Env) (op : Op) (t : List Call) (v : Value)
          (s2 : CUDADeviceAPI),
        s.is_available_ = false →
        ((s.invoke env2 op).run t).outcome = Outcome.ok (v, s2) → s2.is_available_ = false) := by
  refine ⟨⟨false⟩, ?_, rfl, ?_, ?_⟩
  · rw [run_IsPinned_available self env ptr history havailable]
    simp only [List.mem_cons, List.mem_singleton, List.not_mem_nil, or_false] at hstatus
    rcases hstatus with h | h | h | h <;> rw [h]
  · intro later start self2 hr
    have hf : self2.is_available_ = false :=
      invokeAll_keeps_unavailable later ⟨false⟩ start self2 rfl hr
    refine ⟨hf, ?_, ?_⟩
    · intro t
      unfold CUDADeviceAPI.IsAvailable
      rw [hf]
      rfl
    · intro env2 ptr2 t
      exact run_IsPinned_unavailable self2 env2 ptr2 t hf
  · intro s env2 op t v s2 hf hr
    exact invoke_keeps_unavailable s env2 op t v s2 hf hr

/-- C4, at a facade that is available and a driver that answers no-device. -/
theorem C4_context_invalidation_witness :
    (⟨true⟩ : CUDADeviceAPI).is_available_ = true ∧
    ((envAll hipError_t.hipErrorNoDevice false).reply []
        (Call.hipPointerGetAttributes 4096)).status ∈
      [hipError_t.hipErrorNotInitialized, hipError_t.hipErrorNoDevice,
        hipError_t.hipErrorInsufficientDriver, hipError_t.hipErrorInvalidDevice] ∧
    ∃ self1 : CUDADeviceAPI,
      ((⟨true⟩ : CUDADeviceAPI).IsPinned (envAll hipError_t.hipErrorNoDevice false) 4096).run []
        = ⟨Outcome.ok (false, self1),
            [] ++ [Call.hipPointerGetAttributes 4096, Call.hipGetLastError]⟩ ∧
      self1.is_available_ = false ∧
      (∀ (later : List (Env × Op)) (start : List Call) (self2 : CUDADeviceAPI),
        ((self1.invokeAll later).run start).outcome = Outcome.ok self2 →
          self2.is_available_ = false ∧
          (∀ t : List Call, self2.IsAvailable.run t = ⟨Outcome.ok false, t⟩) ∧
          (∀ (env2 : Env) (ptr2 : Nat) (t : List Call),
            (self2.IsPinned env2 ptr2).run t = ⟨Outcome.ok (false, self2), t⟩)) ∧
      (∀ (s : CUDADeviceAPI) (env2 : Env) (op : Op) (t : List Call) (v : Value)
          (s2 : CUDADeviceAPI),
        s.is_available_ = false →
        ((s.invoke env2 op).run t).outcome = Outcome.ok (v, s2) → s2.is_available_ = false) :=
  ⟨rfl, by decide, C4_context_invalidation_is_permanent ⟨true⟩
    (envAll hipError_t.hipErrorNoDevice false) 4096 [] rfl (by decide)⟩

/-- C5: `IsPinned(ptr)` returns true if and only if the availability flag is
true, the pointer-attribute query answers `hipSuccess` and the memory type it
reports is host memory.  When the flag is true and the query answers
`hipErrorInvalidValue`, `IsPinned` returns false without a fatal error and hands
the facade back unchanged.  It ends with a fatal error exactly when the flag is
true and the status is none of success, invalid-value, not-initialized,
no-device, insufficient-driver and invalid-device. -/
theorem C5_IsPinned_result_and_fatal_statuses (self : CUDADeviceAPI) (env : Env) (ptr : Nat)
    (history : List Call) :
    ((∃ s, ((self.IsPinned env ptr).run history).outcome = Outcome.ok (true, s)) ↔
      (self.is_available_ = true ∧
        (env.reply history (Call.hipPointerGetAttributes ptr)).status = hipError_t.hipSuccess ∧
        (env.reply history (Call.hipPointerGetAttributes ptr)).type
          = hipMemoryType.hipMemoryTypeHost)) ∧
    (self.is_available_ = true →
      (env.reply history (Call.hipPointerGetAttributes ptr)).status
        = hipError_t.hipErrorInvalidValue →
      (self.IsPinned env ptr).run history
        = ⟨Outcome.ok (false, self),
            history ++ [Call.hipPointerGetAttributes ptr, Call.hipGetLastError]⟩) ∧
    ((∃ e, ((self.IsPinned env ptr).run history).outcome = Outcome.fatal e) ↔
      (self.is_available_ = true ∧
        (env.reply history (Call.hipPointerGetAttributes ptr)).status ∉
          [hipError_t.hipSuccess, hipError_t.hipErrorInvalidValue,
            hipError_t.hipErrorNotInitialized, hipError_t.hipErrorNoDevice,
            hipError_t.hipErrorInsufficientDriver, hipError_t.hipErrorInvalidDevice])) := by
  cases hflag : self.is_available_ with
  | false =>
    rw [run_IsPinned_unavailable self env ptr history hflag]
    simp
  | true =>
    rw [run_IsPinned_available self env ptr history hflag]
    cases (env.reply history (Call.hipPointerGetAttributes ptr)).status <;> simp

/-- C6: the constructor never ends with a fatal error: it returns a facade, and
`IsAvailable()` on that facade is true if and only if the device-count probe
answered `hipSuccess` with a count greater than zero.  A count of zero, and
every status other than `hipSuccess`, give `IsAvailable() == false`. -/
theorem C6_constructor_probes_availability (env : Env) (history : List Call) :
    ∃ (self : CUDADeviceAPI) (t : List Call) (b : Bool),
      (CUDADeviceAPI.new env).run history = ⟨Outcome.ok self, t⟩ ∧
      self.IsAvailable.run t = ⟨Outcome.ok b, t⟩ ∧
      (b = true ↔ ((env.reply history Call.hipGetDeviceCount).status = hipError_t.hipSuccess ∧
        0 < (env.reply history Call.hipGetDeviceCount).value)) ∧
      ((env.reply history Call.hipGetDeviceCount).value = 0 → b = false) ∧
      ((env.reply history Call.hipGetDeviceCount).status ≠ hipError_t.hipSuccess →
        b = false) := by
  unfold CUDADeviceAPI.new CUDADeviceAPI.IsAvailable
  simp only [M.run_bind_call]
  cases hst : (env.reply history Call.hipGetDeviceCount).status
  case hipSuccess =>
    simp [M.run_bind]
    omega
  all_goals simp [M.run_bind]

/-- C7: `PinData(ptr, nbytes)` returns false exactly when `ptr` is null or
`nbytes` is 0, and then it makes no call at all: no host-register call, and no
call to the external allocator (its host cache is not emptied).  For a
non-null `ptr` and a non-zero `nbytes` the calls it makes are the availability
probe, the emptying of the host cache when the allocator is available, and the
host-register call for `(ptr, nbytes)`; it returns true when that call answers
`hipSuccess` (and exactly when its status passes the check).  `UnpinData(null)`
makes no call. -/
theorem C7_PinData_rejects_null_and_empty (env : Env) (ptr nbytes : Nat)
    (history : List Call) :
    (((PinData env ptr nbytes).run history).outcome = Outcome.ok false ↔
      (ptr = 0 ∨ nbytes = 0)) ∧
    ((ptr = 0 ∨ nbytes = 0) →
      (PinData env ptr nbytes).run history = ⟨Outcome.ok false, history⟩) ∧
    (ptr ≠ 0 ∧ nbytes ≠ 0 →
      ((PinData env ptr nbytes).run history).trace
        = history ++ Call.TensorDispatcher_IsAvailable ::
            (if env.tensorDispatcherAvailable then [Call.CUDAHostAllocatorEmptyCache] else []) ++
            [Call.hipHostRegister ptr nbytes] ∧
      ((env.reply
          (history ++ Call.TensorDispatcher_IsAvailable ::
            (if env.tensorDispatcherAvailable then [Call.CUDAHostAllocatorEmptyCache] else []))
          (Call.hipHostRegister ptr nbytes)).status = hipError_t.hipSuccess →
        ((PinData env ptr nbytes).run history).outcome = Outcome.ok true) ∧
      (((PinData env ptr nbytes).run history).outcome = Outcome.ok true ↔
        cudaCallPasses (env.reply
          (history ++ Call.TensorDispatcher_IsAvailable ::
            (if env.tensorDispatcherAvailable then [Call.CUDAHostAllocatorEmptyCache] else []))
          (Call.hipHostRegister ptr nbytes)).status = true)) ∧
    (UnpinData env 0).run history = ⟨Outcome.ok (), history⟩ := by
  have hnull : (ptr = 0 ∨ nbytes = 0) →
      (PinData env ptr nbytes).run history = ⟨Outcome.ok false, history⟩ := by
    intro h0
    unfold PinData
    rw [if_pos h0]
    rfl
  refine ⟨⟨?_, fun h0 => by rw [hnull h0]⟩, hnull, ?_, ?_⟩
  · intro hout
    by_contra hne
    simp only [not_or] at hne
    rw [run_PinData env ptr nbytes history hne.1 hne.2] at hout
    have aux : ∀ (c : Bool) (e : Fatal),
        (if c = true then Outcome.ok true else Outcome.fatal e) ≠
          (Outcome.ok false : Outcome Bool) := by
      intro c e
      cases c <;> simp
    exact aux _ _ hout
  · rintro ⟨hp, hn⟩
    rw [run_PinData env ptr nbytes history hp hn]
    refine ⟨rfl, ?_, ?_⟩
    · intro hst
      simp [hst, cudaCallPasses]
    · simp only
      split <;> simp_all
  · unfold UnpinData
    rfl

/-- C8, as stated, fails on the driver's failures.  With no external allocator
and an alignment of 256, which divides 256: when the set-device call fails,
`AllocDataSpace` fails fatally without calling the driver allocator; and when
the driver allocation itself fails, it is issued but no pointer is returned. -/
theorem C8_counterexample_fatal_although_alignment_divides :
    256 % 256 = 0 ∧
    (AllocDataSpace (envAll hipError_t.hipErrorInvalidDevice false) (gpu 99) 64 256).run []
      = ⟨Outcome.fatal (Fatal.cuda hipError_t.hipErrorInvalidDevice), [Call.hipSetDevice 99]⟩ ∧
    (AllocDataSpace (envFailingAt (Call.hipMalloc 64) (hipError_t.hipErrorOther 2) false)
        (gpu 0) 64 256).run []
      = ⟨Outcome.fatal (Fatal.cuda (hipError_t.hipErrorOther 2)),
          [Call.hipSetDevice 0, Call.TensorDispatcher_IsAvailable, Call.hipMalloc 64]⟩ := by
  decide

/-- C8, amended: with no external allocator and a non-zero alignment,
`AllocDataSpace(ctx, nbytes, alignment)` first issues the set-device call and
ends fatally there when it fails.  When it passes: the operation fails fatally
without calling the driver allocator if and only if the alignment does not
divide 256, and then with the error "CUDA space is aligned at 256 bytes"; for
an alignment that divides 256 it issues exactly one driver allocation, of
`nbytes` bytes, after selecting the device of `ctx`, and returns the pointer
the driver produced when that allocation passes its check (it is fatal
otherwise). -/
theorem C8_alignment_must_divide_256 (env : Env) (ctx : DGLContext) (nbytes alignment : Nat)
    (history : List Call) (hext : env.tensorDispatcherAvailable = false)
    (halign : alignment ≠ 0) :
    (cudaCallPasses (env.reply history (Call.hipSetDevice ctx.device_id)).status = false →
      (AllocDataSpace env ctx nbytes alignment).run history
        = ⟨Outcome.fatal (Fatal.cuda (env.reply history
            (Call.hipSetDevice ctx.device_id)).status),
          history ++ [Call.hipSetDevice ctx.device_id]⟩) ∧
    (cudaCallPasses (env.reply history (Call.hipSetDevice ctx.device_id)).status = true →
      ((((∃ e, ((AllocDataSpace env ctx nbytes alignment).run history).outcome
            = Outcome.fatal e) ∧
          ∀ n, Call.hipMalloc n ∉
            (((AllocDataSpace env ctx nbytes alignment).run history).trace).drop history.length)
        ↔ 256 % alignment ≠ 0) ∧
      (256 % alignment ≠ 0 →
        (AllocDataSpace env ctx nbytes alignment).run history
          = ⟨Outcome.fatal (Fatal.log "CUDA space is aligned at 256 bytes"),
              history ++ [Call.hipSetDevice ctx.device_id, Call.TensorDispatcher_IsAvailable]⟩) ∧
      (256 % alignment = 0 →
        ((AllocDataSpace env ctx nbytes alignment).run history).trace
          = history ++ [Call.hipSetDevice ctx.device_id, Call.TensorDispatcher_IsAvailable,
              Call.hipMalloc nbytes] ∧
        (cudaCallPasses (env.reply
            (history ++ [Call.hipSetDevice ctx.device_id, Call.TensorDispatcher_IsAvailable])
            (Call.hipMalloc nbytes)).status = true →
          ((AllocDataSpace env ctx nbytes alignment).run history).outcome
            = Outcome.ok (env.reply
              (history ++ [Call.hipSetDevice ctx.device_id, Call.TensorDispatcher_IsAvailable])
              (Call.hipMalloc nbytes)).ptr) ∧
        (cudaCallPasses (env.reply
            (history ++ [Call.hipSetDevice ctx.device_id, Call.TensorDispatcher_IsAvailable])
            (Call.hipMalloc nbytes)).status = false →
          ((AllocDataSpace env ctx nbytes alignment).run history).outcome
            = Outcome.fatal (Fatal.cuda (env.reply
              (history ++ [Call.hipSetDevice ctx.device_id, Call.TensorDispatcher_IsAvailable])
              (Call.hipMalloc nbytes)).status))))) := by
  have hdrop : ∀ l : List Call, (history ++ l).drop history.length = l := by
    intro l
    simp
  refine ⟨fun hdev => ?_, fun hdev => ?_⟩
  · rw [run_AllocDataSpace]
    simp [hdev]
  · rw [run_AllocDataSpace]
    simp only [hdev, hext, if_true, Bool.false_eq_true, if_false, halign]
    by_cases hm : 256 % alignment = 0
    · simp only [hm, ne_eq, not_true_eq_false, if_false, hdrop]
      refine ⟨?_, ?_, ?_⟩
      · simp
      · simp
      · refine fun _ => ⟨trivial, ?_, ?_⟩
        · intro hp
          simp [hp]
        · intro hp
          simp [hp]
    · simp only [hm, ne_eq, not_false_eq_true, if_true, hdrop]
      refine ⟨?_, ?_, ?_⟩
      · simp
      · simp
      · simp

/-- C8 amended, at an alignment of 64 and a driver that succeeds. -/
theorem C8_alignment_witness :
    (envAll hipError_t.hipSuccess false).tensorDispatcherAvailable = false ∧
    (64 : Nat) ≠ 0 ∧
    ((AllocDataSpace (envAll hipError_t.hipSuccess false) (gpu 0) 1024 64).run []).trace
      = [] ++ [Call.hipSetDevice (gpu 0).device_id, Call.TensorDispatcher_IsAvailable,
          Call.hipMalloc 1024] :=
  ⟨rfl, by decide, (((C8_alignment_must_divide_256 (envAll hipError_t.hipSuccess false) (gpu 0)
    1024 64 [] rfl (by decide)).2 rfl).2.2 (by decide)).1⟩

/-- C9, as stated, fails in two places.  When the set-device call fails, the
operation ends there and the external allocator, although available, is never
probed; and with no external allocator an `AllocDataSpace` whose alignment does
not divide 256 is not served by the driver heap: it ends with the alignment
error and no driver allocation. -/
theorem C9_counterexample_no_probe_and_not_served :
    (envAll hipError_t.hipErrorInvalidDevice true).tensorDispatcherAvailable = true ∧
    (AllocWorkspace (envAll hipError_t.hipErrorInvalidDevice true) (gpu 99) 64).run []
      = ⟨Outcome.fatal (Fatal.cuda hipError_t.hipErrorInvalidDevice), [Call.hipSetDevice 99]⟩ ∧
    (envAll hipError_t.hipSuccess false).tensorDispatcherAvailable = false ∧
    (AllocDataSpace (envAll hipError_t.hipSuccess false) (gpu 0) 64 3).run []
      = ⟨Outcome.fatal (Fatal.log "CUDA space is aligned at 256 bytes"),
          [Call.hipSetDevice 0, Call.TensorDispatcher_IsAvailable]⟩ := by
  decide

/-- C9, amended: each of `AllocDataSpace`, `FreeDataSpace`, `AllocWorkspace` and
`FreeWorkspace` first issues the set-device call for `ctx`.  When that call
fails its check the operation ends fatally there, without a probe.  When it
passes, the availability of the external allocator is probed next, on that
very call.  When it is available the calls that follow are only calls to the
external allocator: the allocation of the requested size on the stream that
`CUDAGetCurrentStream` answers, whose pointer is returned, or the free of the
given pointer; there is no driver malloc or free, no pool call, and the
alignment plays no part.  When it is unavailable no call to the external
allocator follows: `FreeDataSpace` issues the driver free of the pointer,
`AllocWorkspace` and `FreeWorkspace` call the thread-local pool, and
`AllocDataSpace` issues at most the driver allocation of `nbytes` bytes, and
issues it whenever the alignment divides 256. -/
theorem C9_delegate_first_policy (env : Env) (ctx : DGLContext)
    (nbytes alignment size ptr data : Nat) (history : List Call) :
    (cudaCallPasses (env.reply history (Call.hipSetDevice ctx.device_id)).status = false →
      (AllocDataSpace env ctx nbytes alignment).run history
        = ⟨Outcome.fatal (Fatal.cuda (env.reply history
            (Call.hipSetDevice ctx.device_id)).status),
          history ++ [Call.hipSetDevice ctx.device_id]⟩ ∧
      (FreeDataSpace env ctx ptr).run history
        = ⟨Outcome.fatal (Fatal.cuda (env.reply history
            (Call.hipSetDevice ctx.device_id)).status),
          history ++ [Call.hipSetDevice ctx.device_id]⟩ ∧
      (AllocWorkspace env ctx size).run history
        = ⟨Outcome.fatal (Fatal.cuda (env.reply history
            (Call.hipSetDevice ctx.device_id)).status),
          history ++ [Call.hipSetDevice ctx.device_id]⟩ ∧
      (FreeWorkspace env ctx data).run history
        = ⟨Outcome.fatal (Fatal.cuda (env.reply history
            (Call.hipSetDevice ctx.device_id)).status),
          history ++ [Call.hipSetDevice ctx.device_id]⟩) ∧
    (cudaCallPasses (env.reply history (Call.hipSetDevice ctx.device_id)).status = true →
      env.tensorDispatcherAvailable = true →
      (AllocDataSpace env ctx nbytes alignment).run history
        = ⟨Outcome.ok (env.reply
            (history ++ [Call.hipSetDevice ctx.device_id, Call.TensorDispatcher_IsAvailable,
              Call.TensorDispatcher_IsAvailable, Call.CUDAGetCurrentStream])
            (Call.CUDAAllocWorkspace nbytes (env.reply
              (history ++ [Call.hipSetDevice ctx.device_id, Call.TensorDispatcher_IsAvailable,
                Call.TensorDispatcher_IsAvailable]) Call.CUDAGetCurrentStream).ptr)).ptr,
          history ++ [Call.hipSetDevice ctx.device_id, Call.TensorDispatcher_IsAvailable,
            Call.TensorDispatcher_IsAvailable, Call.CUDAGetCurrentStream,
            Call.CUDAAllocWorkspace nbytes (env.reply
              (history ++ [Call.hipSetDevice ctx.device_id, Call.TensorDispatcher_IsAvailable,
                Call.TensorDispatcher_IsAvailable]) Call.CUDAGetCurrentStream).ptr]⟩ ∧
      (FreeDataSpace env ctx ptr).run history
        = ⟨Outcome.ok (),
          history ++ [Call.hipSetDevice ctx.device_id, Call.TensorDispatcher_IsAvailable,
            Call.CUDAFreeWorkspace ptr]⟩ ∧
      (AllocWorkspace env ctx size).run history
        = ⟨Outcome.ok (env.reply
            (history ++ [Call.hipSetDevice ctx.device_id, Call.TensorDispatcher_IsAvailable,
              Call.TensorDispatcher_IsAvailable, Call.CUDAGetCurrentStream])
            (Call.CUDAAllocWorkspace size (env.reply
              (history ++ [Call.hipSetDevice ctx.device_id, Call.TensorDispatcher_IsAvailable,
                Call.TensorDispatcher_IsAvailable]) Call.CUDAGetCurrentStream).ptr)).ptr,
          history ++ [Call.hipSetDevice ctx.device_id, Call.TensorDispatcher_IsAvailable,
            Call.TensorDispatcher_IsAvailable, Call.CUDAGetCurrentStream,
            Call.CUDAAllocWorkspace size (env.reply
              (history ++ [Call.hipSetDevice ctx.device_id, Call.TensorDispatcher_IsAvailable,
                Call.TensorDispatcher_IsAvailable]) Call.CUDAGetCurrentStream).ptr]⟩ ∧
      (FreeWorkspace env ctx data).run history
        = ⟨Outcome.ok (),
          history ++ [Call.hipSetDevice ctx.device_id, Call.TensorDispatcher_IsAvailable,
            Call.CUDAFreeWorkspace data]⟩) ∧
    (cudaCallPasses (env.reply history (Call.hipSetDevice ctx.device_id)).status = true →
      env.tensorDispatcherAvailable = false →
      (∃ rest, (rest = [] ∨ rest = [Call.hipMalloc nbytes]) ∧
        (256 % alignment = 0 → rest = [Call.hipMalloc nbytes]) ∧
        ((AllocDataSpace env ctx nbytes alignment).run history).trace
          = history ++ [Call.hipSetDevice ctx.device_id, Call.TensorDispatcher_IsAvailable] ++
            rest) ∧
      ((FreeDataSpace env ctx ptr).run history).trace
        = history ++ [Call.hipSetDevice ctx.device_id, Call.TensorDispatcher_IsAvailable,
            Call.hipFree ptr] ∧
      (AllocWorkspace env ctx size).run history
        = ⟨Outcome.ok (env.reply
            (history ++ [Call.hipSetDevice ctx.device_id, Call.TensorDispatcher_IsAvailable])
            (Call.pool_AllocWorkspace ctx size)).ptr,
          history ++ [Call.hipSetDevice ctx.device_id, Call.TensorDispatcher_IsAvailable,
            Call.pool_AllocWorkspace ctx size]⟩ ∧
      (FreeWorkspace env ctx data).run history
        = ⟨Outcome.ok (),
          history ++ [Call.hipSetDevice ctx.device_id, Call.TensorDispatcher_IsAvailable,
            Call.pool_FreeWorkspace ctx data]⟩) := by
  rw [run_AllocDataSpace, run_FreeDataSpace, run_AllocWorkspace, run_FreeWorkspace]
  refine ⟨fun hdev => ?_, fun hdev hav => ?_, fun hdev hav => ?_⟩
  · simp [hdev]
  · simp [hdev, hav]
  · simp only [hdev, hav, if_true, Bool.false_eq_true, if_false, and_self, and_true]
    by_cases ha : alignment = 0
    · subst ha
      exact ⟨[], Or.inl rfl, by simp, by simp⟩
    · by_cases hm : 256 % alignment = 0
      · exact ⟨[Call.hipMalloc nbytes], Or.inr rfl, fun _ => rfl, by simp [ha, hm]⟩
      · exact ⟨[], Or.inl rfl, fun h0 => absurd h0 hm, by simp [ha, hm]⟩

/-- C10, as stated, fails for the size 0: with no external allocator,
`AllocPinnedDataSpace(0, ...)` does not fail; it returns the null pointer and
makes no call, not even the probe. -/
theorem C10_counterexample_size_zero_returns_null :
    (envAll hipError_t.hipSuccess false).tensorDispatcherAvailable = false ∧
    (AllocPinnedDataSpace (envAll hipError_t.hipSuccess false) 0 8192 8200).run []
      = ⟨Outcome.ok 0, []⟩ := by
  decide

/-- C10, amended: for every non-zero size, when the external allocator is not
available `AllocPinnedDataSpace` fails fatally after the probe (it returns no
pointer and calls nothing else); for the size 0 it returns the null pointer
without any call.  `FreePinnedDataSpace` fails fatally when the allocator is
not available.  When the allocator is available, `AllocPinnedDataSpace` with a
non-zero size returns exactly what the allocator's host-workspace allocation
returns, and `FreePinnedDataSpace` hands the deleter to the allocator. -/
theorem C10_pinned_space_needs_the_external_allocator (env : Env)
    (nbytes ctx deleter : Nat) (history : List Call) :
    (nbytes ≠ 0 → env.tensorDispatcherAvailable = false →
      (AllocPinnedDataSpace env nbytes ctx deleter).run history
        = ⟨Outcome.fatal (Fatal.log cachingHostAllocatorMessage),
            history ++ [Call.TensorDispatcher_IsAvailable]⟩) ∧
    (nbytes = 0 →
      (AllocPinnedDataSpace env nbytes ctx deleter).run history = ⟨Outcome.ok 0, history⟩) ∧
    (env.tensorDispatcherAvailable = false →
      (FreePinnedDataSpace env deleter).run history
        = ⟨Outcome.fatal (Fatal.log cachingHostAllocatorMessage),
            history ++ [Call.TensorDispatcher_IsAvailable]⟩) ∧
    (nbytes ≠ 0 → env.tensorDispatcherAvailable = true →
      (AllocPinnedDataSpace env nbytes ctx deleter).run history
        = ⟨Outcome.ok (env.reply (history ++ [Call.TensorDispatcher_IsAvailable])
            (Call.CUDAAllocHostWorkspace nbytes ctx deleter)).ptr,
          history ++ [Call.TensorDispatcher_IsAvailable,
            Call.CUDAAllocHostWorkspace nbytes ctx deleter]⟩) ∧
    (env.tensorDispatcherAvailable = true →
      (FreePinnedDataSpace env deleter).run history
        = ⟨Outcome.ok (), history ++ [Call.TensorDispatcher_IsAvailable,
            Call.CUDAFreeHostWorkspace deleter]⟩) := by
  unfold AllocPinnedDataSpace FreePinnedDataSpace
  refine ⟨fun hn hav => ?_, fun hn => ?_, fun hav => ?_, fun hn hav => ?_, fun hav => ?_⟩
  · rw [if_neg hn, run_bind_TensorDispatcher_IsAvailable]
    simp [hav]
  · rw [if_pos hn]
    rfl
  · rw [run_bind_TensorDispatcher_IsAvailable]
    simp [hav]
  · rw [if_neg hn, run_bind_TensorDispatcher_IsAvailable]
    simp [hav]
  · rw [run_bind_TensorDispatcher_IsAvailable]
    simp [hav]

/-- C11: `RecordedCopyDataFromTo` asks for the current stream and performs on it
exactly the copy that `CopyDataFromTo` performs on the current stream; none of
the calls made up to the end of the copy is a record call.  When the copy
returns, the allocator's availability is probed and, if and only if it is
available, exactly one record call follows, with the destination pointer when
the destination is the host and the source pointer otherwise, the caller's
context token, the stream the copy was made on, and the source device id when
the destination is the host and the destination device id otherwise.  When the
allocator is unavailable nothing follows the probe, and when the copy ends
fatally the operation ends with it and nothing, so no record call, follows. -/
theorem C11_recorded_copy_records_after_the_copy (env : Env)
    (from_ from_offset to_ to_offset size : Nat) (ctx_from ctx_to : DGLContext)
    (pytorch_ctx : Nat) (history : List Call) :
    ∃ (stream : Nat) (t : List Call),
      (GetStream env).run history = ⟨Outcome.ok stream, t⟩ ∧
      (CopyDataFromTo_current env from_ from_offset to_ to_offset size ctx_from ctx_to).run
          history
        = (CopyDataFromTo env from_ from_offset to_ to_offset size ctx_from ctx_to stream).run t ∧
      (∀ c ∈ (((CopyDataFromTo env from_ from_offset to_ to_offset size ctx_from ctx_to
          stream).run t).trace).drop history.length, isRecordCall c = false) ∧
      (((CopyDataFromTo env from_ from_offset to_ to_offset size ctx_from ctx_to stream).run
          t).outcome = Outcome.ok () →
        (RecordedCopyDataFromTo env from_ from_offset to_ to_offset size ctx_from ctx_to
            pytorch_ctx).run history
          = ⟨Outcome.ok (),
              ((CopyDataFromTo env from_ from_offset to_ to_offset size ctx_from ctx_to
                stream).run t).trace ++
              Call.TensorDispatcher_IsAvailable ::
                (if env.tensorDispatcherAvailable then
                  [Call.CUDARecordHostAlloc
                    (if ctx_to.device_type = DGLDeviceType.kDGLCPU then to_ else from_)
                    pytorch_ctx stream
                    (if ctx_to.device_type = DGLDeviceType.kDGLCPU then ctx_from.device_id
                      else ctx_to.device_id)]
                else [])⟩) ∧
      (((CopyDataFromTo env from_ from_offset to_ to_offset size ctx_from ctx_to stream).run
          t).outcome ≠ Outcome.ok () →
        (RecordedCopyDataFromTo env from_ from_offset to_ to_offset size ctx_from ctx_to
            pytorch_ctx).run history
          = (CopyDataFromTo env from_ from_offset to_ to_offset size ctx_from ctx_to
              stream).run t) := by
  refine ⟨_, _, run_GetStream env history, ?_, ?_, ?_, ?_⟩
  · unfold CopyDataFromTo_current
    rw [M.run_bind, run_GetStream]
  · obtain ⟨new, hnew, hq⟩ := emits_CopyDataFromTo (fun c => isRecordCall c = false) env
      from_ from_offset to_ to_offset size ctx_from ctx_to
      (if env.tensorDispatcherAvailable then
        (env.reply (history ++ [Call.TensorDispatcher_IsAvailable])
          Call.CUDAGetCurrentStream).ptr else 0)
      (fun c hc => by cases c <;> simp_all [isCheckedCall, isRecordCall])
      (history ++ Call.TensorDispatcher_IsAvailable ::
        (if env.tensorDispatcherAvailable then [Call.CUDAGetCurrentStream] else []))
    rw [hnew]
    intro c hc
    rw [List.append_assoc, List.drop_left] at hc
    rcases List.mem_append.mp hc with h1 | h2
    · rcases List.mem_cons.mp h1 with h | h
      · rw [h]
        rfl
      · split at h
        · rw [List.mem_singleton.mp h]
          rfl
        · exact absurd h (List.not_mem_nil c)
    · exact hq c h2
  · intro hok
    unfold RecordedCopyDataFromTo
    rw [M.run_bind, run_GetStream]
    simp only
    rw [M.run_bind]
    rcases hr : (CopyDataFromTo env from_ from_offset to_ to_offset size ctx_from ctx_to
      (if env.tensorDispatcherAvailable then
        (env.reply (history ++ [Call.TensorDispatcher_IsAvailable])
          Call.CUDAGetCurrentStream).ptr else 0)).run
      (history ++ Call.TensorDispatcher_IsAvailable ::
        (if env.tensorDispatcherAvailable then [Call.CUDAGetCurrentStream] else []))
      with ⟨o, t⟩
    rw [hr] at hok
    simp only at hok
    subst hok
    simp only
    rw [run_bind_TensorDispatcher_IsAvailable]
    cases env.tensorDispatcherAvailable <;> simp
  · intro hne
    unfold RecordedCopyDataFromTo
    rw [M.run_bind, run_GetStream]
    simp only
    rw [M.run_bind]
    rcases hr : (CopyDataFromTo env from_ from_offset to_ to_offset size ctx_from ctx_to
      (if env.tensorDispatcherAvailable then
        (env.reply (history ++ [Call.TensorDispatcher_IsAvailable])
          Call.CUDAGetCurrentStream).ptr else 0)).run
      (history ++ Call.TensorDispatcher_IsAvailable ::
        (if env.tensorDispatcherAvailable then [Call.CUDAGetCurrentStream] else []))
      with ⟨o, t⟩
    rw [hr] at hne
    cases o with
    | ok a => exact absurd rfl hne
    | fatal e => rfl
    | undefined => rfl

/-- C12, as stated, fails for the status `hipErrorDeinitialized`: `CUDA_CALL`
lets it pass as it lets `hipSuccess` pass.  With no external allocator and a
driver allocation that answers `hipErrorDeinitialized`, which is not
`hipSuccess`, `AllocDataSpace` returns a pointer. -/
theorem C12_counterexample_deinitialized_is_not_fatal :
    (envAll hipError_t.hipErrorDeinitialized false).tensorDispatcherAvailable = false ∧
    ((envAll hipError_t.hipErrorDeinitialized false).reply
        [Call.hipSetDevice 0, Call.TensorDispatcher_IsAvailable] (Call.hipMalloc 64)).status
      ≠ hipError_t.hipSuccess ∧
    (AllocDataSpace (envAll hipError_t.hipErrorDeinitialized false) (gpu 0) 64 64).run []
      = ⟨Outcome.ok 4096,
          [Call.hipSetDevice 0, Call.TensorDispatcher_IsAvailable, Call.hipMalloc 64]⟩ := by
  decide

/-- C12, amended: every driver error other than `hipErrorDeinitialized` is
fatal in a checked call.  For every operation of the facade: whenever one of
the calls it makes is a checked driver call (set-device, device allocation and
free, asynchronous copy, stream create, destroy and synchronize, the event
calls, host register and unregister) and the driver answers it with a status
other than `hipSuccess` and `hipErrorDeinitialized`, the operation ends with the
fatal error of that status and makes no further call; it does not return.  In
particular, with no external allocator, `AllocDataSpace` returns no pointer
when the driver allocation answers such a status. -/
theorem C12_failing_checked_call_is_fatal (self : CUDADeviceAPI) (env : Env) (op : Op)
    (history : List Call) :
    (∀ (pre : List Call) (c : Call) (post : List Call),
      ((self.invoke env op).run history).trace = history ++ (pre ++ c :: post) →
      isCheckedCall c = true →
      (env.reply (history ++ pre) c).status ≠ hipError_t.hipSuccess →
      (env.reply (history ++ pre) c).status ≠ hipError_t.hipErrorDeinitialized →
      ((self.invoke env op).run history).outcome
          = Outcome.fatal (Fatal.cuda (env.reply (history ++ pre) c).status) ∧
        post = []) ∧
    (∀ (ctx : DGLContext) (nbytes alignment : Nat),
      env.tensorDispatcherAvailable = false →
      (env.reply (history ++ [Call.hipSetDevice ctx.device_id,
        Call.TensorDispatcher_IsAvailable]) (Call.hipMalloc nbytes)).status
          ≠ hipError_t.hipSuccess →
      (env.reply (history ++ [Call.hipSetDevice ctx.device_id,
        Call.TensorDispatcher_IsAvailable]) (Call.hipMalloc nbytes)).status
          ≠ hipError_t.hipErrorDeinitialized →
      ∀ p : Nat, ((AllocDataSpace env ctx nbytes alignment).run history).outcome
        ≠ Outcome.ok p) := by
  have hpass : ∀ e : hipError_t, e ≠ hipError_t.hipSuccess →
      e ≠ hipError_t.hipErrorDeinitialized → cudaCallPasses e = false := by
    intro e h1 h2
    simp [cudaCallPasses, h1, h2]
  refine ⟨?_, ?_⟩
  · intro pre c post htrace hchecked h1 h2
    obtain ⟨new, hnew, hp⟩ := fof_invoke self env op history
    rw [hnew] at htrace
    exact hp pre c post (List.append_cancel_left htrace) hchecked (hpass _ h1 h2)
  · intro ctx nbytes alignment hext h1 h2 p
    rw [run_AllocDataSpace]
    simp only [hext, Bool.false_eq_true, if_false, hpass _ h1 h2]
    split
    · split
      · simp
      · split <;> simp
    · simp

/-- C12 amended, at a `FreeDataSpace` whose driver free answers invalid-value. -/
theorem C12_failing_checked_call_witness :
    ((⟨true⟩ : CUDADeviceAPI).invoke
        (envFailingAt (Call.hipFree 4096) hipError_t.hipErrorInvalidValue false)
        (Op.FreeDataSpace (gpu 0) 4096)).run []
      = ⟨Outcome.fatal (Fatal.cuda hipError_t.hipErrorInvalidValue),
          [Call.hipSetDevice 0, Call.TensorDispatcher_IsAvailable, Call.hipFree 4096]⟩ ∧
    (((⟨true⟩ : CUDADeviceAPI).invoke
        (envFailingAt (Call.hipFree 4096) hipError_t.hipErrorInvalidValue false)
        (Op.FreeDataSpace (gpu 0) 4096)).run []).outcome
      = Outcome.fatal (Fatal.cuda
          ((envFailingAt (Call.hipFree 4096) hipError_t.hipErrorInvalidValue false).reply
            ([] ++ [Call.hipSetDevice 0, Call.TensorDispatcher_IsAvailable])
            (Call.hipFree 4096)).status) ∧
    ([] : List Call) = [] :=
  ⟨by decide, (C12_failing_checked_call_is_fatal ⟨true⟩
    (envFailingAt (Call.hipFree 4096) hipError_t.hipErrorInvalidValue false)
    (Op.FreeDataSpace (gpu 0) 4096) []).1
      [Call.hipSetDevice 0, Call.TensorDispatcher_IsAvailable] (Call.hipFree 4096) []
      (by decide) rfl (by decide) (by decide)⟩

/-- C13, as stated, fails when the external allocator becomes available between
the allocation and the free.  `AllocDataSpace`, called while the allocator is
not available, is served by the driver heap and returns the pointer 4096; the
later `FreeDataSpace` of that pointer, called when the allocator is available,
hands it to the external allocator's free. -/
theorem C13_counterexample_driver_pointer_freed_by_external_allocator :
    ((AllocDataSpace (envAll hipError_t.hipSuccess false) (gpu 0) 64 64).run [])
      = ⟨Outcome.ok 4096,
          [Call.hipSetDevice 0, Call.TensorDispatcher_IsAvailable, Call.hipMalloc 64]⟩ ∧
    ((⟨true⟩ : CUDADeviceAPI).invokeAll
        [(envAll hipError_t.hipSuccess false, Op.AllocDataSpace (gpu 0) 64 64),
          (envAll hipError_t.hipSuccess true, Op.FreeDataSpace (gpu 0) 4096)]).run []
      = ⟨Outcome.ok ⟨true⟩,
          [Call.hipSetDevice 0, Call.TensorDispatcher_IsAvailable, Call.hipMalloc 64,
            Call.hipSetDevice 0, Call.TensorDispatcher_IsAvailable,
            Call.CUDAFreeWorkspace 4096]⟩ := by
  decide

/-- C13, amended: `FreeDataSpace` frees through the source that the
availability probed at the free call selects, whatever allocated the pointer:
after a passing set-device call it hands the pointer to the external
allocator's free when the allocator is available at that call, and to the
driver free when it is not.  So in every sequence of facade calls during which
the availability is the same at every call, sources are never mixed: when the
allocator is available throughout, no driver-heap allocation or free is issued
at all, and when it is unavailable throughout, no workspace allocation or free
of the external allocator is issued. -/
theorem C13_sources_not_mixed_while_availability_is_constant (available : Bool)
    (steps : List (Env × Op)) (self : CUDADeviceAPI) (history : List Call)
    (hconstant : ∀ step ∈ steps, step.1.tensorDispatcherAvailable = available) :
    (∃ new : List Call, ((self.invokeAll steps).run history).trace = history ++ new ∧
      (available = true → ∀ c ∈ new, isDriverHeapCall c = false) ∧
      (available = false → ∀ c ∈ new, isExternalWorkspaceCall c = false)) ∧
    (∀ (env : Env) (ctx : DGLContext) (ptr : Nat) (t : List Call),
      cudaCallPasses (env.reply t (Call.hipSetDevice ctx.device_id)).status = true →
      ((FreeDataSpace env ctx ptr).run t).trace
        = t ++ [Call.hipSetDevice ctx.device_id, Call.TensorDispatcher_IsAvailable,
            if env.tensorDispatcherAvailable then Call.CUDAFreeWorkspace ptr
              else Call.hipFree ptr]) := by
  refine ⟨?_, ?_⟩
  · obtain ⟨new, hnew, hall⟩ := emits_invokeAll available steps hconstant self history
    exact ⟨new, hnew, fun ha c hc => (hall c hc).1 ha, fun ha c hc => (hall c hc).2 ha⟩
  · intro env ctx ptr t hdev
    rw [run_FreeDataSpace, if_pos hdev]
    cases env.tensorDispatcherAvailable <;> simp

/-- C13 amended, at an allocation and a free that both meet no external
allocator. -/
theorem C13_sources_not_mixed_witness :
    (∀ step ∈ [(envAll hipError_t.hipSuccess false, Op.AllocDataSpace (gpu 0) 64 64),
        (envAll hipError_t.hipSuccess false, Op.FreeDataSpace (gpu 0) 4096)],
      step.1.tensorDispatcherAvailable = false) ∧
    ∃ new : List Call,
      (((⟨true⟩ : CUDADeviceAPI).invokeAll
        [(envAll hipError_t.hipSuccess false, Op.AllocDataSpace (gpu 0) 64 64),
          (envAll hipError_t.hipSuccess false, Op.FreeDataSpace (gpu 0) 4096)]).run []).trace
        = [] ++ new ∧
      (false = true → ∀ c ∈ new, isDriverHeapCall c = false) ∧
      (false = false → ∀ c ∈ new, isExternalWorkspaceCall c = false) :=
  ⟨by decide, (C13_sources_not_mixed_while_availability_is_constant false
    [(envAll hipError_t.hipSuccess false, Op.AllocDataSpace (gpu 0) 64 64),
      (envAll hipError_t.hipSuccess false, Op.FreeDataSpace (gpu 0) 4096)] ⟨true⟩ []
    (by decide)).1⟩

end dgl.runtime
